import Mathlib

/-!
Verification of the moonshot_sniper decision-and-risk core against its
natural-language specification.

Shallow embedding conventions:
* Python floats are modelled as rationals; Python ints as Int or Nat.
* Time is modelled in minutes as a rational; the source's datetime values
  (entry_time, pause_until, utcnow) become rational instants, and the
  configured pause duration of `pause_duration_hours` hours becomes
  `pause_duration_hours * 60` minutes.
* The execution collaborator (buy_token / sell_token) is an external
  service; its success outcome is passed in as a Bool oracle argument.
* The database collaborator only receives writes in the modelled code
  paths; its visible effect is the list of recorded trades and recorded
  position closes, carried in the state.
* Logging calls and purely textual fields (reason strings, entry_reasons,
  details dictionaries) are not modelled, with one exception: the
  confluence engine branches on the text of rejection reasons, so those
  are modelled as a tagged type whose criticality test mirrors the
  keyword-substring test on the formatted strings (see RejectionReason).
-/

namespace Sniper

/-! ## Configuration (src/config/settings.py) -/

/-- PoolConfig from settings.py. -/
structure PoolConfig where
  name : String
  allocation_percent : ℚ
  min_score : ℤ
  min_confluence : ℕ
  stop_loss_percent : ℚ
  position_size_percent : ℚ
  max_positions : ℕ
  min_age : ℚ
  max_age : ℚ
  trailing_stop_percent : ℚ
  flat_exit_minutes : ℚ
  deriving Repr

/-- SAFE_POOL constant from settings.py. -/
def SAFE_POOL : PoolConfig :=
  { name := "SAFE", allocation_percent := 60, min_score := 75, min_confluence := 3
  , stop_loss_percent := -20, position_size_percent := 15, max_positions := 3
  , min_age := 30, max_age := 240, trailing_stop_percent := 20, flat_exit_minutes := 120 }

/-- HUNT_POOL constant from settings.py. -/
def HUNT_POOL : PoolConfig :=
  { name := "HUNT", allocation_percent := 40, min_score := 65, min_confluence := 2
  , stop_loss_percent := -30, position_size_percent := 15, max_positions := 2
  , min_age := 0, max_age := 30, trailing_stop_percent := 25, flat_exit_minutes := 240 }

/-- TakeProfitLevel from settings.py. -/
structure TakeProfitLevel where
  level : ℕ
  trigger_percent : ℚ
  sell_percent : ℚ
  move_sl_to_percent : Option ℚ
  deriving Repr

/-- TAKE_PROFIT_LADDER constant from settings.py. -/
def TAKE_PROFIT_LADDER : List TakeProfitLevel :=
  [ { level := 1, trigger_percent := 50, sell_percent := 20, move_sl_to_percent := some 0 }
  , { level := 2, trigger_percent := 100, sell_percent := 30, move_sl_to_percent := some 25 }
  , { level := 3, trigger_percent := 200, sell_percent := 25, move_sl_to_percent := some 75 }
  , { level := 4, trigger_percent := 500, sell_percent := 15, move_sl_to_percent := some 150 } ]

/-- ScoringWeights from settings.py (six scoring-dimension maxima). -/
structure ScoringWeights where
  liquidity : ℤ
  holders : ℤ
  trading_activity : ℤ
  momentum : ℤ
  social_signals : ℤ
  dev_reputation : ℤ
  deriving Repr

/-- SCORING_WEIGHTS constant from settings.py. -/
def SCORING_WEIGHTS : ScoringWeights :=
  { liquidity := 20, holders := 20, trading_activity := 25
  , momentum := 20, social_signals := 10, dev_reputation := 5 }

/-- TradingConfig from settings.py (fields used by the modelled core). -/
structure TradingConfig where
  starting_capital : ℚ
  daily_loss_limit_percent : ℚ
  consecutive_loss_pause : ℕ
  pause_duration_hours : ℚ
  max_position_size : ℚ
  min_position_size : ℚ
  max_total_positions : ℕ
  max_tax_percent : ℚ
  min_holders : ℕ
  max_top_holder_percent : ℚ
  min_liquidity_usd : ℚ
  deriving Repr

/-- TRADING_CONFIG constant from settings.py. -/
def TRADING_CONFIG : TradingConfig :=
  { starting_capital := 100, daily_loss_limit_percent := 15
  , consecutive_loss_pause := 3, pause_duration_hours := 4
  , max_position_size := 20, min_position_size := 5, max_total_positions := 5
  , max_tax_percent := 5, min_holders := 20, max_top_holder_percent := 20
  , min_liquidity_usd := 3000 }

/-- ConfluenceConfig.weights from settings.py, as an association list in the
dictionary's insertion order. -/
def confluenceWeights : List (String × ℕ) :=
  [ ("safety_passed", 2), ("liquidity_healthy", 1), ("holders_distributed", 1)
  , ("volume_increasing", 1), ("buy_pressure_high", 1), ("momentum_bullish", 2)
  , ("smart_money_buying", 2), ("social_buzz", 1), ("fresh_token", 1), ("no_red_flags", 1) ]

/-- Weight lookup, mirroring self.signal_weights[name]. -/
def weightOf (name : String) : ℕ := ((confluenceWeights.lookup name).getD 0)

/-! ## Position state (src/engines/position_manager.py) -/

/-- ActivePosition from position_manager.py, merged with the fields of the
persisted Position record it wraps (id, pool, entry_price, entry_value,
entry_time). The chain and token-identity fields play no role in any
modelled computation and are omitted. entry_time is a rational instant in
minutes; age_minutes is computed against a supplied current time. -/
structure ActivePosition where
  id : ℕ
  pool : String
  entry_price : ℚ
  entry_value : ℚ
  entry_time : ℚ
  current_price : ℚ
  highest_price : ℚ
  pnl_percent : ℚ
  pnl_usd : ℚ
  tp_levels_hit : List ℕ
  current_stop_loss : ℚ
  trailing_active : Bool
  trailing_high : ℚ
  original_quantity : ℚ
  remaining_quantity : ℚ
  total_sold_value : ℚ
  total_realized_pnl : ℚ
  deriving Repr, DecidableEq

/-- ActivePosition.age_minutes: minutes elapsed since entry, at instant now. -/
def ActivePosition.age (pos : ActivePosition) (now : ℚ) : ℚ := now - pos.entry_time

/-- ActivePosition.update_price from position_manager.py lines 83-97. -/
def ActivePosition.updatePrice (pos : ActivePosition) (new_price : ℚ) : ActivePosition :=
  let pos1 := { pos with current_price := new_price }
  let pos2 :=
    if pos1.highest_price < new_price then
      { pos1 with highest_price := new_price
                , trailing_high := if pos1.trailing_active then new_price else pos1.trailing_high }
    else pos1
  if 0 < pos2.entry_price then
    { pos2 with pnl_percent := (new_price - pos2.entry_price) / pos2.entry_price * 100
              , pnl_usd := pos2.total_realized_pnl
                  + pos2.remaining_quantity * (new_price - pos2.entry_price) }
  else pos2

/-- Trade record (core/database.py Trade), restricted to the fields the
modelled code writes and the claims read. -/
structure Trade where
  position_id : ℕ
  trade_type : String
  price : ℚ
  quantity : ℚ
  value : ℚ
  deriving Repr, DecidableEq

/-- Record written by db.close_position(id, price, reason, pnl). -/
structure ClosedRec where
  position_id : ℕ
  exit_price : ℚ
  reason : String
  pnl : ℚ
  deriving Repr, DecidableEq

/-- PositionManager runtime state (its __init__ fields), together with the
write-only persistence effects (trades, closed). -/
structure PMState where
  positions : List ActivePosition
  total_capital : ℚ
  available_capital : ℚ
  safe_pool_capital : ℚ
  hunt_pool_capital : ℚ
  daily_pnl : ℚ
  daily_trades : ℕ
  consecutive_losses : ℕ
  is_paused : Bool
  pause_until : Option ℚ
  trades : List Trade
  closed : List ClosedRec
  deriving Repr, DecidableEq

/-- PositionManager.__init__ with the default TRADING_CONFIG capital. -/
def initialState : PMState :=
  { positions := []
  , total_capital := TRADING_CONFIG.starting_capital
  , available_capital := TRADING_CONFIG.starting_capital
  , safe_pool_capital := TRADING_CONFIG.starting_capital * (SAFE_POOL.allocation_percent / 100)
  , hunt_pool_capital := TRADING_CONFIG.starting_capital * (HUNT_POOL.allocation_percent / 100)
  , daily_pnl := 0, daily_trades := 0, consecutive_losses := 0
  , is_paused := false, pause_until := none, trades := [], closed := [] }

/-- PositionManager._activate_pause: sets the pause flag and its expiry at
now plus the configured pause duration (hours converted to minutes). -/
def activatePause (s : PMState) (now : ℚ) : PMState :=
  { s with is_paused := true
         , pause_until := some (now + TRADING_CONFIG.pause_duration_hours * 60) }

/-- PositionManager._check_circuit_breaker from position_manager.py lines
518-528: pause on reaching the consecutive-loss threshold, otherwise pause
when daily P&L as a percent of total capital is at or below the negative
daily loss limit. -/
def checkCircuitBreaker (s : PMState) (now : ℚ) : PMState :=
  if TRADING_CONFIG.consecutive_loss_pause ≤ s.consecutive_losses then
    activatePause s now
  else
    let daily_loss_percent := s.daily_pnl / s.total_capital * 100
    if daily_loss_percent ≤ -TRADING_CONFIG.daily_loss_limit_percent then
      activatePause s now
    else s

/-- PositionManager._close_position from position_manager.py lines 448-507.
The position object itself is only read, never written, by the source
method; all mutation is on the manager state. sell_ok is the execution
collaborator's sell outcome. -/
def closePosition (s : PMState) (now : ℚ) (pos : ActivePosition) (reason : String)
    (sell_ok : Bool) : PMState :=
  if pos.remaining_quantity ≤ 0 then s
  else if sell_ok = false then s
  else
    let sell_value := pos.remaining_quantity * pos.current_price
    let final_profit := sell_value - pos.remaining_quantity * pos.entry_price
    let total_pnl := pos.total_realized_pnl + final_profit
    let tr : Trade :=
      { position_id := pos.id, trade_type := reason, price := pos.current_price
      , quantity := pos.remaining_quantity, value := sell_value }
    let return_value := pos.total_sold_value + sell_value
    let s1 : PMState :=
      { s with trades := s.trades ++ [tr]
             , closed := s.closed ++ [{ position_id := pos.id, exit_price := pos.current_price
                                      , reason := reason, pnl := total_pnl }]
             , safe_pool_capital :=
                 if pos.pool = "SAFE" then s.safe_pool_capital + return_value
                 else s.safe_pool_capital
             , hunt_pool_capital :=
                 if pos.pool = "SAFE" then s.hunt_pool_capital
                 else s.hunt_pool_capital + return_value
             , available_capital := s.available_capital + return_value
             , daily_pnl := s.daily_pnl + total_pnl
             , daily_trades := s.daily_trades + 1
             , consecutive_losses :=
                 if total_pnl < 0 then s.consecutive_losses + 1 else 0
             , positions := s.positions.filter (fun q => q.id ≠ pos.id) }
    if total_pnl < 0 then checkCircuitBreaker s1 now else s1

/-- PositionManager.open_position after the circuit-breaker gate
(position_manager.py lines 231-320): position-count checks, capital clamp,
minimum-size check, quantity and stop-loss computation, execution-buy gate,
position and trade creation, capital debit. buy_ok is the execution
collaborator's buy outcome; new_id is the id assigned by db.create_position.
The native-price conversion on the buy amount only affects the argument
passed to the collaborator and is absorbed by the oracle. -/
def openPositionBody (s : PMState) (now : ℚ) (pool : String) (entry_price size_usd : ℚ)
    (buy_ok : Bool) (new_id : ℕ) : PMState × Option ActivePosition :=
  let pool_config := if pool = "SAFE" then SAFE_POOL else HUNT_POOL
  let pool_positions := (s.positions.filter (fun p => p.pool = pool)).length
  if pool_config.max_positions ≤ pool_positions then (s, none)
  else if TRADING_CONFIG.max_total_positions ≤ s.positions.length then (s, none)
  else
    let pool_capital := if pool = "SAFE" then s.safe_pool_capital else s.hunt_pool_capital
    let size := if pool_capital < size_usd then pool_capital * (9 / 10) else size_usd
    if size < TRADING_CONFIG.min_position_size then (s, none)
    else
      let quantity := if 0 < entry_price then size / entry_price else 0
      let sl_percent := |pool_config.stop_loss_percent|
      let stop_loss := entry_price * (1 - sl_percent / 100)
      if buy_ok = false then (s, none)
      else
        let pos : ActivePosition :=
          { id := new_id, pool := pool, entry_price := entry_price, entry_value := size
          , entry_time := now, current_price := entry_price, highest_price := entry_price
          , pnl_percent := 0, pnl_usd := 0, tp_levels_hit := []
          , current_stop_loss := stop_loss, trailing_active := false, trailing_high := 0
          , original_quantity := quantity, remaining_quantity := quantity
          , total_sold_value := 0, total_realized_pnl := 0 }
        let tr : Trade :=
          { position_id := new_id, trade_type := "BUY", price := entry_price
          , quantity := quantity, value := size }
        ({ s with positions := s.positions ++ [pos]
                , trades := s.trades ++ [tr]
                , safe_pool_capital :=
                    if pool = "SAFE" then s.safe_pool_capital - size else s.safe_pool_capital
                , hunt_pool_capital :=
                    if pool = "SAFE" then s.hunt_pool_capital else s.hunt_pool_capital - size
                , available_capital := s.available_capital - size }, some pos)

/-- PositionManager.open_position from position_manager.py lines 208-320,
starting with the circuit-breaker gate: a live pause rejects the request; an
expired or expiry-less pause is cleared and the request proceeds. -/
def openPosition (s : PMState) (now : ℚ) (pool : String) (entry_price size_usd : ℚ)
    (buy_ok : Bool) (new_id : ℕ) : PMState × Option ActivePosition :=
  if s.is_paused then
    match s.pause_until with
    | some t =>
        if now < t then (s, none)
        else openPositionBody { s with is_paused := false } now pool entry_price size_usd buy_ok new_id
    | none => openPositionBody { s with is_paused := false } now pool entry_price size_usd buy_ok new_id
  else openPositionBody s now pool entry_price size_usd buy_ok new_id

/-- PositionManager._execute_take_profit from position_manager.py lines
363-413: sell a fraction of the remaining quantity, record the level,
accumulate realized P&L and sold value, ratchet the stop upward only, record
the trade, and activate trailing after level 4. -/
def executeTakeProfit (s : PMState) (pos : ActivePosition) (level : ℕ)
    (sell_percent : ℚ) (new_sl_percent : Option ℚ) (sell_ok : Bool) :
    PMState × ActivePosition :=
  let sell_quantity := pos.remaining_quantity * (sell_percent / 100)
  if sell_quantity ≤ 0 then (s, pos)
  else if sell_ok = false then (s, pos)
  else
    let sell_value := sell_quantity * pos.current_price
    let profit := sell_value - sell_quantity * pos.entry_price
    let pos1 := { pos with tp_levels_hit := pos.tp_levels_hit ++ [level]
                         , remaining_quantity := pos.remaining_quantity - sell_quantity
                         , total_sold_value := pos.total_sold_value + sell_value
                         , total_realized_pnl := pos.total_realized_pnl + profit }
    let pos2 :=
      match new_sl_percent with
      | some nsl =>
          let new_sl := pos.entry_price * (1 + nsl / 100)
          if pos1.current_stop_loss < new_sl then { pos1 with current_stop_loss := new_sl }
          else pos1
      | none => pos1
    let tr : Trade :=
      { position_id := pos.id, trade_type := "TP" ++ toString level
      , price := pos.current_price, quantity := sell_quantity, value := sell_value }
    let pos3 :=
      if 4 ≤ level then { pos2 with trailing_active := true, trailing_high := pos.current_price }
      else pos2
    ({ s with trades := s.trades ++ [tr] }, pos3)

/-- Single iteration of the _check_take_profits ladder loop
(position_manager.py lines 352-361). tp_ok gives the sell outcome per level. -/
def tpStep (tp_ok : ℕ → Bool) (sp : PMState × ActivePosition) (tp : TakeProfitLevel) :
    PMState × ActivePosition :=
  if tp.level ∈ sp.2.tp_levels_hit then sp
  else
    let trigger_price := sp.2.entry_price * (1 + tp.trigger_percent / 100)
    if trigger_price ≤ sp.2.current_price then
      executeTakeProfit sp.1 sp.2 tp.level tp.sell_percent tp.move_sl_to_percent (tp_ok tp.level)
    else sp

/-- PositionManager._check_take_profits: fold the ladder loop over
TAKE_PROFIT_LADDER. -/
def checkTakeProfits (s : PMState) (pos : ActivePosition) (tp_ok : ℕ → Bool) :
    PMState × ActivePosition :=
  TAKE_PROFIT_LADDER.foldl (tpStep tp_ok) (s, pos)

/-- PositionManager._check_stop_loss from position_manager.py lines 415-432:
with an active trailing stop, recompute the trail level, ratchet the stop
upward only, and close on a touch of the trail; otherwise close on a touch
of the current stop. close_ok is the sell outcome of the close attempt. -/
def checkStopLoss (s : PMState) (pos : ActivePosition) (now : ℚ) (close_ok : Bool) :
    PMState × ActivePosition :=
  if pos.trailing_active then
    let pool_config := if pos.pool = "SAFE" then SAFE_POOL else HUNT_POOL
    let trail_stop := pos.trailing_high * (1 - pool_config.trailing_stop_percent / 100)
    let pos1 :=
      if pos.current_stop_loss < trail_stop then { pos with current_stop_loss := trail_stop }
      else pos
    if pos1.current_price ≤ trail_stop then
      (closePosition s now pos1 "TRAILING_STOP" close_ok, pos1)
    else if pos1.current_price ≤ pos1.current_stop_loss then
      (closePosition s now pos1 "STOP_LOSS" close_ok, pos1)
    else (s, pos1)
  else
    if pos.current_price ≤ pos.current_stop_loss then
      (closePosition s now pos "STOP_LOSS" close_ok, pos)
    else (s, pos)

/-- PositionManager._check_time_exit from position_manager.py lines 434-442:
past the pool's flat-exit age with an absolute P&L percent below 10, force a
close with reason TIME_EXIT. -/
def checkTimeExit (s : PMState) (pos : ActivePosition) (now : ℚ) (close_ok : Bool) : PMState :=
  let pool_config := if pos.pool = "SAFE" then SAFE_POOL else HUNT_POOL
  if pool_config.flat_exit_minutes < pos.age now then
    if |pos.pnl_percent| < 10 then closePosition s now pos "TIME_EXIT" close_ok
    else s
  else s

/-- Execution-sell outcomes consumed by one monitoring pass over a single
position: per-level take-profit sells, the stop-loss close, the time-exit
close. -/
structure TickOracle where
  tp_ok : ℕ → Bool
  sl_ok : Bool
  time_ok : Bool

/-- Body of PositionManager.update_positions for one position
(position_manager.py lines 326-350): with a usable price, update the price,
run the take-profit, stop-loss, and time-exit checks in order, then save the
position state. The source mutates one shared position object held in the
positions dictionary; the model threads that object explicitly and mirrors
the dictionary sharing by writing the final object back over the stored
entry with the same id (a no-op when a close already removed it). The
returned pair is (manager state, final position object). -/
def tickPosition (s : PMState) (pos : ActivePosition) (now : ℚ) (price : Option ℚ)
    (o : TickOracle) : PMState × ActivePosition :=
  match price with
  | none => (s, pos)
  | some p =>
    if 0 < p then
      let pos1 := pos.updatePrice p
      let sp1 := checkTakeProfits s pos1 o.tp_ok
      let sp2 := checkStopLoss sp1.1 sp1.2 now o.sl_ok
      let s3 := checkTimeExit sp2.1 sp2.2 now o.time_ok
      ({ s3 with positions := s3.positions.map (fun q => if q.id = pos.id then sp2.2 else q) }
      , sp2.2)
    else (s, pos)

/-- Inputs of one monitoring tick on a position: current time, fetched
price, execution outcomes. -/
structure TickInput where
  now : ℚ
  price : Option ℚ
  oracle : TickOracle

/-- Iterated monitoring ticks on one position. -/
def runTicks (s : PMState) (pos : ActivePosition) (inputs : List TickInput) :
    PMState × ActivePosition :=
  inputs.foldl (fun sp i => tickPosition sp.1 sp.2 i.now i.price i.oracle) (s, pos)

/-- External commands driving the manager: an open request, a monitoring
tick on a stored position, or a manual close (close_all_positions uses
reason MANUAL on each stored position). -/
inductive Cmd where
  | openP (now : ℚ) (pool : String) (entry_price size_usd : ℚ) (buy_ok : Bool) (new_id : ℕ)
  | tick (pid : ℕ) (now : ℚ) (price : Option ℚ) (tp_ok : ℕ → Bool) (sl_ok time_ok : Bool)
  | closeManual (pid : ℕ) (now : ℚ) (sell_ok : Bool)

/-- One manager step: tick and manual-close commands act on the stored
position with the given id, if any. -/
def applyCmd (s : PMState) : Cmd → PMState
  | .openP now pool entry_price size_usd buy_ok new_id =>
      (openPosition s now pool entry_price size_usd buy_ok new_id).1
  | .tick pid now price tp_ok sl_ok time_ok =>
      match s.positions.find? (fun p => p.id = pid) with
      | some pos => (tickPosition s pos now price ⟨tp_ok, sl_ok, time_ok⟩).1
      | none => s
  | .closeManual pid now sell_ok =>
      match s.positions.find? (fun p => p.id = pid) with
      | some pos => closePosition s now pos "MANUAL" sell_ok
      | none => s

/-- Run a command sequence from a starting state. -/
def runCmds (s : PMState) (cmds : List Cmd) : PMState := cmds.foldl applyCmd s

/-! ## Market and safety snapshots (src/scanners/dexscreener.py,
src/engines/safety_engine.py, src/engines/momentum_engine.py) -/

/-- TokenPair from dexscreener.py, restricted to the fields the scoring and
confluence engines read. age_minutes is a derived property of created_at
and the current time in the source; it is modelled as a direct input. -/
structure TokenPair where
  liquidity_usd : ℚ
  market_cap : ℚ
  volume_24h : ℚ
  volume_6h : ℚ
  volume_1h : ℚ
  price_change_5m : ℚ
  price_change_1h : ℚ
  txns_buys_1h : ℕ
  txns_sells_1h : ℕ
  age_minutes : ℚ
  deriving Repr, DecidableEq

/-- TokenPair.buy_pressure_1h property. -/
def TokenPair.buy_pressure_1h (p : TokenPair) : ℚ :=
  let total := p.txns_buys_1h + p.txns_sells_1h
  if 0 < total then (p.txns_buys_1h : ℚ) / (total : ℚ) else 1 / 2

/-- TokenPair.volume_trend property. -/
def TokenPair.volume_trend (p : TokenPair) : String :=
  if p.volume_6h / 6 * 2 < p.volume_1h then "INCREASING"
  else if p.volume_1h < p.volume_6h / 6 * (1 / 2) then "DECREASING"
  else "STABLE"

/-- SafetyStatus from safety_engine.py. -/
inductive SafetyStatus where
  | SAFE
  | WARNING
  | DANGEROUS
  | UNKNOWN
  deriving Repr, DecidableEq

/-- SafetyReport from safety_engine.py, restricted to the fields the
scoring and confluence engines read. -/
structure SafetyReport where
  status : SafetyStatus
  score : ℤ
  is_honeypot : Bool
  has_mint : Bool
  is_proxy : Bool
  can_pause : Bool
  has_blacklist : Bool
  tax_buy : ℚ
  tax_sell : ℚ
  is_renounced : Bool
  lp_locked : Bool
  holder_count : ℕ
  top_holder_percent : ℚ
  deriving Repr, DecidableEq

/-- MomentumSignal from momentum_engine.py, restricted to the fields the
confluence engine reads. -/
structure MomentumSignal where
  trend : String
  signal : String
  confidence : ℚ
  price_change_5m : ℚ
  is_dumping : Bool
  deriving Repr, DecidableEq

/-- Smart-money signal dictionary: the engines read only the
smart_wallets_buying entry (default 0). An absent or empty dictionary is
modelled as none. -/
structure SmartMoney where
  smart_wallets_buying : ℕ
  deriving Repr, DecidableEq

/-- Social-signal dictionary: the scoring engine reads mentions and
sentiment (the latter is read but never used). -/
structure SocialData where
  mentions : ℕ
  sentiment : ℚ
  deriving Repr, DecidableEq

/-! ## Scoring engine (src/engines/scoring_engine.py) -/

/-- ScoreBreakdown from scoring_engine.py (numeric fields; the textual
details, bonuses, and penalties annotations are not modelled). -/
structure ScoreBreakdown where
  liquidity_score : ℤ
  holders_score : ℤ
  trading_score : ℤ
  momentum_score : ℤ
  social_score : ℤ
  dev_score : ℤ
  total_score : ℤ
  max_possible : ℤ
  deriving Repr, DecidableEq

/-- Python int() applied to a float: truncation toward zero. -/
def pyTrunc (q : ℚ) : ℤ := if 0 ≤ q then Int.floor q else -(Int.floor (-q))

/-- ScoringEngine._score_liquidity (0-20). -/
def ScoringEngine.scoreLiquidity (pair : TokenPair) : ℤ :=
  let liq := pair.liquidity_usd
  let max_score := SCORING_WEIGHTS.liquidity
  if liq < TRADING_CONFIG.min_liquidity_usd then 0
  else if 100000 ≤ liq then max_score
  else if 50000 ≤ liq then pyTrunc ((max_score : ℚ) * 0.9)
  else if 20000 ≤ liq then pyTrunc ((max_score : ℚ) * 0.75)
  else if 10000 ≤ liq then pyTrunc ((max_score : ℚ) * 0.6)
  else if 5000 ≤ liq then pyTrunc ((max_score : ℚ) * 0.4)
  else pyTrunc ((max_score : ℚ) * 0.2)

/-- ScoringEngine._score_holders (0-20). -/
def ScoringEngine.scoreHolders (safety : SafetyReport) : ℤ :=
  let max_score : ℚ := (SCORING_WEIGHTS.holders : ℚ)
  let holders := safety.holder_count
  let top_percent := safety.top_holder_percent
  let holder_score : ℚ :=
    if 1000 ≤ holders then max_score * 0.5
    else if 500 ≤ holders then max_score * 0.4
    else if 200 ≤ holders then max_score * 0.3
    else if 50 ≤ holders then max_score * 0.2
    else max_score * 0.1
  let dist_score : ℚ :=
    if top_percent ≤ 5 then max_score * 0.5
    else if top_percent ≤ 10 then max_score * 0.4
    else if top_percent ≤ 15 then max_score * 0.25
    else if top_percent ≤ TRADING_CONFIG.max_top_holder_percent then max_score * 0.1
    else 0
  pyTrunc (holder_score + dist_score)

/-- ScoringEngine._score_trading (0-25). -/
def ScoringEngine.scoreTrading (pair : TokenPair) : ℤ :=
  let max_score : ℚ := (SCORING_WEIGHTS.trading_activity : ℚ)
  let vol_liq_r : ℚ :=
    if 0 < pair.liquidity_usd then pair.volume_24h / pair.liquidity_usd else 0
  let vol_score : ℚ :=
    if 1 ≤ vol_liq_r then max_score * 0.4
    else if 0.5 ≤ vol_liq_r then max_score * 0.35
    else if 0.2 ≤ vol_liq_r then max_score * 0.25
    else if 0.1 ≤ vol_liq_r then max_score * 0.15
    else max_score * 0.05
  let bp := pair.buy_pressure_1h
  let bp_score : ℚ :=
    if 0.7 ≤ bp then max_score * 0.35
    else if 0.6 ≤ bp then max_score * 0.3
    else if 0.5 ≤ bp then max_score * 0.2
    else if 0.4 ≤ bp then max_score * 0.1
    else 0
  let txn_count := pair.txns_buys_1h + pair.txns_sells_1h
  let txn_score : ℚ :=
    if 100 ≤ txn_count then max_score * 0.25
    else if 50 ≤ txn_count then max_score * 0.2
    else if 20 ≤ txn_count then max_score * 0.15
    else max_score * 0.05
  pyTrunc (vol_score + bp_score + txn_score)

/-- ScoringEngine._score_momentum (0-20); the momentum_data argument of the
source method is never read inside it. -/
def ScoringEngine.scoreMomentum (pair : TokenPair) : ℤ :=
  let max_score : ℚ := (SCORING_WEIGHTS.momentum : ℚ)
  let change_5m := pair.price_change_5m
  let change_1h := pair.price_change_1h
  let short_score : ℚ :=
    if 10 < change_5m then max_score * 0.3
    else if 5 < change_5m then max_score * 0.25
    else if 0 < change_5m then max_score * 0.15
    else if -5 < change_5m then max_score * 0.1
    else 0
  let med_score : ℚ :=
    if 20 < change_1h then max_score * 0.35
    else if 10 < change_1h then max_score * 0.3
    else if 0 < change_1h then max_score * 0.2
    else if -10 < change_1h then max_score * 0.1
    else 0
  let trend_score : ℚ :=
    if pair.volume_trend = "INCREASING" then max_score * 0.35
    else if pair.volume_trend = "STABLE" then max_score * 0.2
    else max_score * 0.05
  pyTrunc (short_score + med_score + trend_score)

/-- ScoringEngine._score_social (0-10). -/
def ScoringEngine.scoreSocial (social_data : Option SocialData)
    (smart_money_data : Option SmartMoney) : ℤ :=
  let max_score : ℚ := (SCORING_WEIGHTS.social_signals : ℚ)
  let fromSmart : ℚ :=
    match smart_money_data with
    | some sm =>
        if 3 ≤ sm.smart_wallets_buying then max_score * 0.5
        else if 1 ≤ sm.smart_wallets_buying then max_score * 0.3
        else 0
    | none => 0
  let fromSocial : ℚ :=
    match social_data with
    | some sd =>
        if 100 < sd.mentions then max_score * 0.3
        else if 20 < sd.mentions then max_score * 0.15
        else 0
    | none => 0
  pyTrunc (min (fromSmart + fromSocial) max_score)

/-- ScoringEngine._score_dev (0-5). -/
def ScoringEngine.scoreDev (safety : SafetyReport) : ℤ :=
  let max_score := SCORING_WEIGHTS.dev_reputation
  let s0 := max_score
  let s1 := if safety.has_mint then s0 - 2 else s0
  let s2 := if safety.is_proxy then s1 - 2 else s1
  let s3 := if safety.lp_locked = false then s2 - 1 else s2
  let s4 := if safety.is_renounced = false then s3 - 1 else s3
  max 0 s4

/-- ScoringEngine._apply_modifiers: age bonus or penalty, market-cap
adjustment, safety-status modifier, applied to the summed total. -/
def ScoringEngine.applyModifiers (pair : TokenPair) (safety : SafetyReport)
    (total : ℤ) : ℤ :=
  let age := pair.age_minutes
  let t1 :=
    if age < 10 then total + 5
    else if age < 30 then total + 3
    else if 180 < age then total - 5
    else total
  let t2 :=
    if 0 < pair.market_cap then
      if pair.market_cap < 50000 then t1 + 3
      else if 10000000 < pair.market_cap then t1 - 5
      else t1
    else t1
  match safety.status with
  | .SAFE => t2 + 5
  | .WARNING => t2 - 10
  | .DANGEROUS => t2 - 30
  | .UNKNOWN => t2

/-- ScoringEngine.score from scoring_engine.py lines 56-108: six dimension
scores, summed, modified, and clamped to [0, 100]. The momentum_data
argument is accepted but never read by the source implementation. -/
def ScoringEngine.score (pair : TokenPair) (safety : SafetyReport)
    (_momentum_data : Option Unit) (social_data : Option SocialData)
    (smart_money_data : Option SmartMoney) : ScoreBreakdown :=
  let l := ScoringEngine.scoreLiquidity pair
  let h := ScoringEngine.scoreHolders safety
  let t := ScoringEngine.scoreTrading pair
  let m := ScoringEngine.scoreMomentum pair
  let so := ScoringEngine.scoreSocial social_data smart_money_data
  let d := ScoringEngine.scoreDev safety
  let total := l + h + t + m + so + d
  let modified := ScoringEngine.applyModifiers pair safety total
  { liquidity_score := l, holders_score := h, trading_score := t
  , momentum_score := m, social_score := so, dev_score := d
  , total_score := max 0 (min 100 modified), max_possible := 100 }

/-! ## Confluence engine (src/engines/confluence_engine.py) -/

/-- ConfluenceSignal from confluence_engine.py (name, activity, assigned
weight; the reason text and data dictionary are not modelled). -/
structure ConfluenceSignal where
  name : String
  active : Bool
  weight : ℕ
  deriving Repr, DecidableEq

/-- Rejection reasons appended by the confluence checks, modelled as a
tagged type instead of formatted strings. Each constructor corresponds to
one fixed f-string template of the source; the interpolated values are
numbers or safety-status names and never contribute letters matching the
critical keywords, so criticality is determined by the template alone. -/
inductive RejectionReason where
  | safetyFailed (status : SafetyStatus)
  | lowLiquidity (liq : ℚ)
  | suspiciousLiquidity
  | tooFewHolders (holders : ℕ)
  | tooConcentrated (top : ℚ)
  | heavySelling (bp : ℚ)
  | priceDumping (change : ℚ)
  | tokenTooOld (age : ℚ)
  | redFlagMint
  | redFlagProxy
  | redFlagPause
  | redFlagHighTax (buy sell : ℚ)
  | redFlagRecentDump (change : ℚ)
  deriving Repr, DecidableEq

/-- Criticality test of _make_decision: the source lowercases each
rejection-reason string and looks for a substring among honeypot, safety,
concentrated, dump. Template by template: safetyFailed renders as a string
starting with the words Safety check failed (contains safety);
tooConcentrated renders as Too concentrated (contains concentrated);
priceDumping renders as Price dumping (contains dump); redFlagRecentDump
renders as Red flag: Recent dump (contains dump). No other template
contains any of the four keywords. -/
def RejectionReason.isCritical : RejectionReason → Bool
  | .safetyFailed _ => true
  | .tooConcentrated _ => true
  | .priceDumping _ => true
  | .redFlagRecentDump _ => true
  | _ => false

/-- ConfluenceResult from confluence_engine.py (the token and chain
identifiers and the entry_reasons log list are not modelled). -/
structure ConfluenceResult where
  signals : List ConfluenceSignal
  active_signals : ℕ
  total_weight : ℕ
  max_weight : ℕ
  should_enter : Bool
  recommended_pool : Option String
  confidence : ℚ
  position_size_percent : ℚ
  risk_level : String
  rejection_reasons : List RejectionReason
  deriving Repr, DecidableEq

/-- ConfluenceEngine._check_safety. -/
def ConfluenceEngine.checkSafety (safety : SafetyReport) :
    ConfluenceSignal × List RejectionReason :=
  let active := safety.status = SafetyStatus.SAFE
  (⟨"safety_passed", active, if active then weightOf "safety_passed" else 0⟩
  , if active then [] else [.safetyFailed safety.status])

/-- ConfluenceEngine._check_liquidity. -/
def ConfluenceEngine.checkLiquidity (pair : TokenPair) :
    ConfluenceSignal × List RejectionReason :=
  let active := TRADING_CONFIG.min_liquidity_usd ≤ pair.liquidity_usd
  let suspicious := pair.volume_24h * 10 < pair.liquidity_usd ∧ pair.volume_24h < 1000
  (⟨"liquidity_healthy", active ∧ ¬suspicious
   , if active ∧ ¬suspicious then weightOf "liquidity_healthy" else 0⟩
  , (if active then [] else [.lowLiquidity pair.liquidity_usd])
    ++ (if suspicious then [.suspiciousLiquidity] else []))

/-- ConfluenceEngine._check_holders. -/
def ConfluenceEngine.checkHolders (safety : SafetyReport) :
    ConfluenceSignal × List RejectionReason :=
  let active := TRADING_CONFIG.min_holders ≤ safety.holder_count ∧
    safety.top_holder_percent ≤ TRADING_CONFIG.max_top_holder_percent
  (⟨"holders_distributed", active, if active then weightOf "holders_distributed" else 0⟩
  , (if safety.holder_count < TRADING_CONFIG.min_holders
     then [.tooFewHolders safety.holder_count] else [])
    ++ (if TRADING_CONFIG.max_top_holder_percent < safety.top_holder_percent
        then [.tooConcentrated safety.top_holder_percent] else []))

/-- ConfluenceEngine._check_volume. -/
def ConfluenceEngine.checkVolume (pair : TokenPair) :
    ConfluenceSignal × List RejectionReason :=
  let vol_trend := pair.volume_trend
  let active := vol_trend = "INCREASING" ∨ (vol_trend = "STABLE" ∧ 1000 < pair.volume_1h)
  (⟨"volume_increasing", active, if active then weightOf "volume_increasing" else 0⟩, [])

/-- ConfluenceEngine._check_buy_pressure. -/
def ConfluenceEngine.checkBuyPressure (pair : TokenPair) :
    ConfluenceSignal × List RejectionReason :=
  let bp := pair.buy_pressure_1h
  let active := (0.55 : ℚ) ≤ bp
  (⟨"buy_pressure_high", active, if active then weightOf "buy_pressure_high" else 0⟩
  , if bp < 0.4 then [.heavySelling bp] else [])

/-- ConfluenceEngine._check_momentum. -/
def ConfluenceEngine.checkMomentum (momentum : MomentumSignal) :
    ConfluenceSignal × List RejectionReason :=
  let active := momentum.trend = "BULLISH" ∨
    (momentum.signal = "BUY" ∨ momentum.signal = "STRONG_BUY")
  (⟨"momentum_bullish", active, if active then weightOf "momentum_bullish" else 0⟩
  , if momentum.is_dumping then [.priceDumping momentum.price_change_5m] else [])

/-- ConfluenceEngine._check_smart_money (the entry_reasons append on an
active signal is a log effect and is not modelled). -/
def ConfluenceEngine.checkSmartMoney (smart_money : Option SmartMoney) :
    ConfluenceSignal × List RejectionReason :=
  match smart_money with
  | none => (⟨"smart_money_buying", false, 0⟩, [])
  | some sm =>
      let active := 2 ≤ sm.smart_wallets_buying
      (⟨"smart_money_buying", active, if active then weightOf "smart_money_buying" else 0⟩, [])

/-- ConfluenceEngine._check_social: a placeholder, always inactive. -/
def ConfluenceEngine.checkSocial : ConfluenceSignal × List RejectionReason :=
  (⟨"social_buzz", false, 0⟩, [])

/-- ConfluenceEngine._check_age. -/
def ConfluenceEngine.checkAge (pair : TokenPair) :
    ConfluenceSignal × List RejectionReason :=
  let age := pair.age_minutes
  let fresh := age ≤ 30
  let established := 30 ≤ age ∧ age ≤ 240
  let active := fresh ∨ established
  (⟨"fresh_token", active, if active then weightOf "fresh_token" else 0⟩
  , if 240 < age then [.tokenTooOld age] else [])

/-- ConfluenceEngine._check_red_flags: the flag list, in source order. -/
def ConfluenceEngine.redFlags (safety : SafetyReport) (pair : TokenPair) :
    List RejectionReason :=
  (if safety.has_mint then [RejectionReason.redFlagMint] else [])
  ++ (if safety.is_proxy then [RejectionReason.redFlagProxy] else [])
  ++ (if safety.can_pause then [RejectionReason.redFlagPause] else [])
  ++ (if 5 < safety.tax_buy ∨ 5 < safety.tax_sell
      then [RejectionReason.redFlagHighTax safety.tax_buy safety.tax_sell] else [])
  ++ (if pair.price_change_5m < -20
      then [RejectionReason.redFlagRecentDump pair.price_change_5m] else [])

/-- ConfluenceEngine._check_red_flags. -/
def ConfluenceEngine.checkRedFlags (safety : SafetyReport) (pair : TokenPair) :
    ConfluenceSignal × List RejectionReason :=
  let flags := ConfluenceEngine.redFlags safety pair
  let active := flags = []
  (⟨"no_red_flags", active, if active then weightOf "no_red_flags" else 0⟩, flags)

/-- ConfluenceEngine._make_decision after the critical-rejection gate
(confluence_engine.py lines 312-347): confidence from the weight ratio,
pool selection by token age against each pool's minimum confluence and
score, then confidence-based size scaling capped at 20. -/
def ConfluenceEngine.makeDecisionRest (r : ConfluenceResult) (score : ScoreBreakdown)
    (pair : TokenPair) : ConfluenceResult :=
  let weight_r : ℚ :=
    if 0 < r.max_weight then (r.total_weight : ℚ) / (r.max_weight : ℚ) else 0
  let r1 := { r with confidence := weight_r * 100 }
  let age := pair.age_minutes
  let r2 :=
    if age ≤ 30 then
      if HUNT_POOL.min_confluence ≤ r1.active_signals ∧
         HUNT_POOL.min_score ≤ score.total_score then
        { r1 with should_enter := true, recommended_pool := some "HUNT"
                , position_size_percent := HUNT_POOL.position_size_percent
                , risk_level := "HIGH" }
      else r1
    else
      if SAFE_POOL.min_confluence ≤ r1.active_signals ∧
         SAFE_POOL.min_score ≤ score.total_score then
        { r1 with should_enter := true, recommended_pool := some "SAFE"
                , position_size_percent := SAFE_POOL.position_size_percent
                , risk_level := "MEDIUM" }
      else r1
  if r2.should_enter then
    let r3 :=
      if 80 ≤ r2.confidence then
        { r2 with position_size_percent := r2.position_size_percent * 1.2
                , risk_level := if r2.recommended_pool = some "SAFE" then "LOW" else "MEDIUM" }
      else if r2.confidence < 60 then
        { r2 with position_size_percent := r2.position_size_percent * 0.8
                , risk_level := "HIGH" }
      else r2
    { r3 with position_size_percent := min r3.position_size_percent 20 }
  else r2

/-- ConfluenceEngine._make_decision from confluence_engine.py lines
299-347: a nonempty rejection list containing a critical reason forces
no-entry with confidence 0; otherwise the decision proceeds. -/
def ConfluenceEngine.makeDecision (r : ConfluenceResult) (score : ScoreBreakdown)
    (pair : TokenPair) : ConfluenceResult :=
  if r.rejection_reasons ≠ [] ∧ r.rejection_reasons.filter RejectionReason.isCritical ≠ [] then
    { r with should_enter := false, confidence := 0 }
  else ConfluenceEngine.makeDecisionRest r score pair

/-- ConfluenceEngine.analyze, lines 94-117: the result as it stands right
before _make_decision is called — the ten signal checks run in order, the
active count and weight aggregated, and the decision fields still at their
dataclass defaults. -/
def ConfluenceEngine.analyzeBase (pair : TokenPair) (safety : SafetyReport)
    (momentum : MomentumSignal) (smart_money : Option SmartMoney) : ConfluenceResult :=
  let max_weight := (confluenceWeights.map Prod.snd).sum
  let c1 := ConfluenceEngine.checkSafety safety
  let c2 := ConfluenceEngine.checkLiquidity pair
  let c3 := ConfluenceEngine.checkHolders safety
  let c4 := ConfluenceEngine.checkVolume pair
  let c5 := ConfluenceEngine.checkBuyPressure pair
  let c6 := ConfluenceEngine.checkMomentum momentum
  let c7 := ConfluenceEngine.checkSmartMoney smart_money
  let c8 := ConfluenceEngine.checkSocial
  let c9 := ConfluenceEngine.checkAge pair
  let c10 := ConfluenceEngine.checkRedFlags safety pair
  let signals := [c1.1, c2.1, c3.1, c4.1, c5.1, c6.1, c7.1, c8.1, c9.1, c10.1]
  let rejections := c1.2 ++ c2.2 ++ c3.2 ++ c4.2 ++ c5.2 ++ c6.2 ++ c7.2 ++ c8.2 ++ c9.2 ++ c10.2
  { signals := signals
  , active_signals := (signals.filter (fun s => s.active)).length
  , total_weight := ((signals.filter (fun s => s.active)).map (fun s => s.weight)).sum
  , max_weight := max_weight
  , should_enter := false, recommended_pool := none, confidence := 0
  , position_size_percent := 0, risk_level := "MEDIUM"
  , rejection_reasons := rejections }

/-- ConfluenceEngine.analyze from confluence_engine.py lines 77-121: run
the ten signal checks in order, aggregate the active count and weight, and
make the entry decision. The chain argument of the source is only stored on
the result and is omitted. -/
def ConfluenceEngine.analyze (pair : TokenPair) (safety : SafetyReport)
    (score : ScoreBreakdown) (momentum : MomentumSignal)
    (smart_money : Option SmartMoney) : ConfluenceResult :=
  ConfluenceEngine.makeDecision (ConfluenceEngine.analyzeBase pair safety momentum smart_money)
    score pair

/-! ## Derived notions used by the verified properties -/

/-- Trade types written by _execute_take_profit: the string TP followed by
the ladder level. -/
def isTPType (ty : String) : Bool :=
  TAKE_PROFIT_LADDER.any (fun tp => ty = "TP" ++ toString tp.level)

/-- Total quantity sold by recorded partial take-profit trades of one
position. -/
def soldTPQty (ts : List Trade) (pid : ℕ) : ℚ :=
  ((ts.filter (fun t => t.position_id == pid && isTPType t.trade_type)).map
    Trade.quantity).sum

/-- Pool-capital selector of open_position line 244. -/
def poolCapitalOf (s : PMState) (pool : String) : ℚ :=
  if pool = "SAFE" then s.safe_pool_capital else s.hunt_pool_capital

/-- Requested-size clamp of open_position lines 245-246: a request above
the pool capital is reduced to 90 percent of that capital. -/
def clampedSize (s : PMState) (pool : String) (size_usd : ℚ) : ℚ :=
  if poolCapitalOf s pool < size_usd then poolCapitalOf s pool * (9 / 10) else size_usd

/-- Pool-config selector used throughout the position manager. -/
def poolConfigOf (pool : String) : PoolConfig :=
  if pool = "SAFE" then SAFE_POOL else HUNT_POOL

/-- Total P&L computed by _close_position for a position it closes. -/
def closePnl (pos : ActivePosition) : ℚ :=
  pos.total_realized_pnl +
    (pos.remaining_quantity * pos.current_price - pos.remaining_quantity * pos.entry_price)

/-- Position whose full close realizes a negative total P&L. -/
def losingClose (pos : ActivePosition) : Prop := closePnl pos < 0

/-- Per-position well-formedness carried by the capital-ledger invariant:
nonnegative remaining quantity and accumulated sold value, and a
nonnegative price whenever there is anything left to sell. -/
def GoodPos (p : ActivePosition) : Prop :=
  0 ≤ p.remaining_quantity ∧ 0 ≤ p.total_sold_value ∧
    (0 < p.remaining_quantity → 0 ≤ p.current_price)

/-- Strengthened per-position well-formedness holding mid-tick, after a
price update installed a positive price. -/
def TickGood (p : ActivePosition) : Prop :=
  0 ≤ p.remaining_quantity ∧ 0 ≤ p.total_sold_value ∧ 0 ≤ p.current_price

/-- Capital-ledger invariant: both pool ledgers are nonnegative and every
stored position is well formed. -/
def GoodState (s : PMState) : Prop :=
  0 ≤ s.safe_pool_capital ∧ 0 ≤ s.hunt_pool_capital ∧ ∀ p ∈ s.positions, GoodPos p

/-! ## Concrete scenario inputs -/

/-- Position used for the double-close scenario: a SAFE position that took
TP1 at price 1.5 (sold 2 of 10 units for value 3, realized profit 1, stop
ratcheted to break-even 1.0), now back at price 1.0. -/
def dblPos : ActivePosition :=
  { id := 1, pool := "SAFE", entry_price := 1, entry_value := 10, entry_time := 0
  , current_price := 1, highest_price := 1.5, pnl_percent := 0, pnl_usd := 1
  , tp_levels_hit := [1], current_stop_loss := 1, trailing_active := false
  , trailing_high := 0, original_quantity := 10, remaining_quantity := 8
  , total_sold_value := 3, total_realized_pnl := 1 }

/-- Manager state holding dblPos with empty ledgers, to expose the capital
credited by closes. -/
def dblState : PMState :=
  { initialState with positions := [dblPos], safe_pool_capital := 0, hunt_pool_capital := 0
                    , available_capital := 0 }

/-- Oracle granting success to every execution call. -/
def allOk : TickOracle := { tp_ok := fun _ => true, sl_ok := true, time_ok := true }

/-- Position used for the time-exit scenario: a flat SAFE position, stop
below price, no trailing. -/
def flatPos : ActivePosition :=
  { id := 2, pool := "SAFE", entry_price := 1, entry_value := 10, entry_time := 0
  , current_price := 1, highest_price := 1, pnl_percent := 0, pnl_usd := 0
  , tp_levels_hit := [], current_stop_loss := 0.8, trailing_active := false
  , trailing_high := 0, original_quantity := 10, remaining_quantity := 10
  , total_sold_value := 0, total_realized_pnl := 0 }

/-- Manager state holding flatPos. -/
def flatState : PMState := { initialState with positions := [flatPos] }

/-- Position whose full close realizes a loss: bought 10 units at 1,
price now 0.5. -/
def losingPos : ActivePosition :=
  { id := 3, pool := "SAFE", entry_price := 1, entry_value := 10, entry_time := 0
  , current_price := 0.5, highest_price := 1, pnl_percent := -50, pnl_usd := -5
  , tp_levels_hit := [], current_stop_loss := 0.8, trailing_active := false
  , trailing_high := 0, original_quantity := 10, remaining_quantity := 10
  , total_sold_value := 0, total_realized_pnl := 0 }

/-- Market snapshot for the critical-rejection scenario: healthy liquidity,
rising volume, strong buying, fresh age. -/
def crPair : TokenPair :=
  { liquidity_usd := 10000, market_cap := 0, volume_24h := 50000, volume_6h := 12000
  , volume_1h := 10000, price_change_5m := 0, price_change_1h := 0
  , txns_buys_1h := 70, txns_sells_1h := 30, age_minutes := 10 }

/-- Safety report for the critical-rejection scenario: DANGEROUS status
(a critical rejection) but otherwise clean flags and distributed holders. -/
def crSafety : SafetyReport :=
  { status := .DANGEROUS, score := 0, is_honeypot := false, has_mint := false
  , is_proxy := false, can_pause := false, has_blacklist := false
  , tax_buy := 0, tax_sell := 0, is_renounced := true, lp_locked := true
  , holder_count := 100, top_holder_percent := 5 }

/-- Safety report identical to crSafety but with SAFE status: no rejection
reasons at all. -/
def okSafety : SafetyReport := { crSafety with status := .SAFE }

/-- Bullish momentum input for the critical-rejection scenario. -/
def crMomentum : MomentumSignal :=
  { trend := "BULLISH", signal := "BUY", confidence := 50, price_change_5m := 0
  , is_dumping := false }

/-- Position produced by an open request with entry price 0 and size 10 on
the initial state: the explicit guard yields quantity 0. -/
def zePos : ActivePosition :=
  { id := 1, pool := "SAFE", entry_price := 0, entry_value := 10, entry_time := 0
  , current_price := 0, highest_price := 0, pnl_percent := 0, pnl_usd := 0
  , tp_levels_hit := [], current_stop_loss := 0, trailing_active := false
  , trailing_high := 0, original_quantity := 0, remaining_quantity := 0
  , total_sold_value := 0, total_realized_pnl := 0 }

/-- Quality score input for the critical-rejection scenario. -/
def crScore : ScoreBreakdown :=
  { liquidity_score := 12, holders_score := 12, trading_score := 15, momentum_score := 10
  , social_score := 0, dev_score := 5, total_score := 80, max_possible := 100 }

/-! ## Helper lemmas -/

theorem foldlInv {α β : Type _} (f : β → α → β) (P : β → Prop) :
    ∀ (l : List α) (b : β), P b → (∀ b a, a ∈ l → P b → P (f b a)) → P (l.foldl f b) := by
  intro l
  induction l with
  | nil => intro b hb _; exact hb
  | cons a rest ih =>
      intro b hb hstep
      simp only [List.foldl_cons]
      exact ih (f b a) (hstep b a (List.mem_cons_self a rest) hb)
        (fun b' a' ha' hb' => hstep b' a' (List.mem_cons_of_mem a ha') hb')

theorem updatePrice_sl (pos : ActivePosition) (p : ℚ) :
    (pos.updatePrice p).current_stop_loss = pos.current_stop_loss := by
  simp only [ActivePosition.updatePrice]
  split_ifs <;> rfl

theorem executeTakeProfit_sl (s : PMState) (pos : ActivePosition) (level : ℕ)
    (pct : ℚ) (nsl : Option ℚ) (ok : Bool) :
    pos.current_stop_loss ≤ (executeTakeProfit s pos level pct nsl ok).2.current_stop_loss := by
  cases nsl <;> simp only [executeTakeProfit] <;> split_ifs <;>
    first | exact le_refl _ | linarith

theorem tpStep_sl (tp_ok : ℕ → Bool) (sp : PMState × ActivePosition) (tp : TakeProfitLevel) :
    sp.2.current_stop_loss ≤ (tpStep tp_ok sp tp).2.current_stop_loss := by
  simp only [tpStep]
  split_ifs <;> first | exact le_refl _ | exact executeTakeProfit_sl _ _ _ _ _ _

theorem checkTakeProfits_sl (s : PMState) (pos : ActivePosition) (tp_ok : ℕ → Bool) :
    pos.current_stop_loss ≤ (checkTakeProfits s pos tp_ok).2.current_stop_loss := by
  simp only [checkTakeProfits]
  exact foldlInv (tpStep tp_ok) (fun sp => pos.current_stop_loss ≤ sp.2.current_stop_loss)
    TAKE_PROFIT_LADDER (s, pos) (le_refl _)
    (fun sp tp _ h => le_trans h (tpStep_sl tp_ok sp tp))

theorem checkStopLoss_sl (s : PMState) (pos : ActivePosition) (now : ℚ) (ok : Bool) :
    pos.current_stop_loss ≤ (checkStopLoss s pos now ok).2.current_stop_loss := by
  simp only [checkStopLoss]
  split_ifs <;> dsimp only <;> first | exact le_refl _ | linarith

set_option maxHeartbeats 1000000 in
theorem tickPosition_sl (s : PMState) (pos : ActivePosition) (now : ℚ) (price : Option ℚ)
    (o : TickOracle) :
    pos.current_stop_loss ≤ (tickPosition s pos now price o).2.current_stop_loss := by
  cases price with
  | none => exact le_refl _
  | some p =>
      simp only [tickPosition]
      split_ifs with h
      · calc pos.current_stop_loss
            = (pos.updatePrice p).current_stop_loss := (updatePrice_sl pos p).symm
          _ ≤ (checkTakeProfits s (pos.updatePrice p) o.tp_ok).2.current_stop_loss :=
              checkTakeProfits_sl _ _ _
          _ ≤ _ := checkStopLoss_sl _ _ _ _
      · exact le_refl _

theorem runTicks_sl (s : PMState) (pos : ActivePosition) (inputs : List TickInput) :
    pos.current_stop_loss ≤ (runTicks s pos inputs).2.current_stop_loss := by
  simp only [runTicks]
  exact foldlInv _ (fun sp => pos.current_stop_loss ≤ sp.2.current_stop_loss) inputs (s, pos)
    (le_refl _) (fun sp i _ h => le_trans h (tickPosition_sl sp.1 sp.2 i.now i.price i.oracle))

/-! ## Claim theorems -/

/-- C5: across every monitoring tick after creation (and hence across every
sequence of price-update ticks), a position's current_stop_loss never
decreases: the take-profit ratchet and the trailing-stop recomputation only
replace it with strictly higher values. -/
theorem stop_loss_monotone :
    (∀ (s : PMState) (pos : ActivePosition) (now : ℚ) (price : Option ℚ) (o : TickOracle),
        pos.current_stop_loss ≤ (tickPosition s pos now price o).2.current_stop_loss) ∧
    (∀ (s : PMState) (pos : ActivePosition) (inputs : List TickInput),
        pos.current_stop_loss ≤ (runTicks s pos inputs).2.current_stop_loss) :=
  ⟨tickPosition_sl, runTicks_sl⟩

/-- C8: the six configured scoring-dimension maxima (liquidity 20, holders
20, trading-activity 25, momentum 20, social 10, dev-reputation 5) sum to
exactly 100, and the total_score of every ScoreBreakdown returned by
ScoringEngine.score lies within [0, 100]. -/
theorem scoring_maxima_sum_and_total_bounded :
    SCORING_WEIGHTS.liquidity + SCORING_WEIGHTS.holders + SCORING_WEIGHTS.trading_activity
        + SCORING_WEIGHTS.momentum + SCORING_WEIGHTS.social_signals
        + SCORING_WEIGHTS.dev_reputation = 100 ∧
    ∀ (pair : TokenPair) (safety : SafetyReport) (md : Option Unit) (sd : Option SocialData)
      (smd : Option SmartMoney),
        0 ≤ (ScoringEngine.score pair safety md sd smd).total_score ∧
        (ScoringEngine.score pair safety md sd smd).total_score ≤ 100 := by
  refine ⟨by decide, fun pair safety md sd smd => ⟨?_, ?_⟩⟩
  · exact le_max_left 0 _
  · exact max_le (by norm_num) (min_le_left _ _)

/-- C1: evaluation of the double-close scenario. dblPos satisfies both the
stop-loss condition (price 1 at stop 1) and the time-exit condition (age
200 over the SAFE flat-exit limit of 120, P&L 0 percent) in one tick, so
_close_position runs twice on the same position object: remaining_quantity
is never zeroed by a close, so the second close re-sells the remaining 8
units, records a second terminal trade, credits the pool capital twice (22
instead of 11), and counts two daily trades. The state after the second
close differs from the state after the first, refuting idempotence. -/
theorem close_not_idempotent_double_close :
    (tickPosition dblState dblPos 200 (some 1) allOk).1.daily_trades = 2 ∧
    ((tickPosition dblState dblPos 200 (some 1) allOk).1.closed.map ClosedRec.reason) =
      ["STOP_LOSS", "TIME_EXIT"] ∧
    (tickPosition dblState dblPos 200 (some 1) allOk).1.safe_pool_capital = 22 ∧
    closePosition dblState 200 dblPos "STOP_LOSS" true ≠
      closePosition (closePosition dblState 200 dblPos "STOP_LOSS" true) 200 dblPos
        "TIME_EXIT" true := by
  refine ⟨?_, ?_, ?_, ?_⟩ <;>
    [skip; skip; skip;
     (intro h;
      have := congrArg PMState.daily_trades h;
      revert this)] <;>
  norm_num [tickPosition, ActivePosition.updatePrice, checkTakeProfits, TAKE_PROFIT_LADDER,
    tpStep, executeTakeProfit, checkStopLoss, checkTimeExit, closePosition, checkCircuitBreaker,
    activatePause, dblState, dblPos, allOk, initialState, SAFE_POOL, HUNT_POOL, TRADING_CONFIG,
    ActivePosition.age]

theorem checkCircuitBreaker_closed (s : PMState) (now : ℚ) :
    (checkCircuitBreaker s now).closed = s.closed := by
  simp only [checkCircuitBreaker, activatePause]
  split_ifs <;> rfl

theorem closePosition_closed (s : PMState) (now : ℚ) (pos : ActivePosition) (r : String)
    (hq : 0 < pos.remaining_quantity) :
    (closePosition s now pos r true).closed =
      s.closed ++ [{ position_id := pos.id, exit_price := pos.current_price
                   , reason := r, pnl := closePnl pos }] := by
  simp only [closePosition, closePnl]
  rw [if_neg (not_le.mpr hq)]
  split_ifs <;> first | rw [checkCircuitBreaker_closed] | rfl | simp_all

/-- C4: counterexample to the claimed exit-reason string. flatPos exceeds
the SAFE pool's flat-exit duration (age 130 over 120) with P&L 0 percent,
and the next monitoring tick does force a close, but the recorded reason is
TIME_EXIT, not stagnant. -/
theorem time_exit_reason_counterexample :
    SAFE_POOL.flat_exit_minutes < flatPos.age 130 ∧ |flatPos.pnl_percent| < 10 ∧
    ((tickPosition flatState flatPos 130 (some 1) allOk).1.closed.map ClosedRec.reason) =
      ["TIME_EXIT"] ∧ ("TIME_EXIT" : String) ≠ "stagnant" := by
  refine ⟨by norm_num [SAFE_POOL, flatPos, ActivePosition.age], by norm_num [flatPos], ?_,
    by decide⟩
  norm_num [tickPosition, ActivePosition.updatePrice, checkTakeProfits, TAKE_PROFIT_LADDER,
    tpStep, executeTakeProfit, checkStopLoss, checkTimeExit, closePosition, checkCircuitBreaker,
    activatePause, flatState, flatPos, allOk, initialState, SAFE_POOL, HUNT_POOL, TRADING_CONFIG,
    ActivePosition.age]

/-- C4 (amended): whenever a position's age exceeds its pool's flat-exit
duration while the absolute P&L percentage is below 10 and the position
still holds quantity, the time-exit check closes it with recorded exit
reason TIME_EXIT (the string written both to the trade record and the close
record), not stagnant. -/
theorem time_exit_reason_time_exit (s : PMState) (pos : ActivePosition) (now : ℚ)
    (hage : (poolConfigOf pos.pool).flat_exit_minutes < pos.age now)
    (hpnl : |pos.pnl_percent| < 10) (hq : 0 < pos.remaining_quantity) :
    (checkTimeExit s pos now true).closed =
      s.closed ++ [{ position_id := pos.id, exit_price := pos.current_price
                   , reason := "TIME_EXIT", pnl := closePnl pos }] := by
  simp only [checkTimeExit]
  simp only [poolConfigOf] at hage
  rw [if_pos hage, if_pos hpnl]
  exact closePosition_closed s now pos "TIME_EXIT" hq

/-- C4 witness: the amended theorem applied to the concrete flat position at
time 130. -/
theorem time_exit_reason_witness :
    (checkTimeExit flatState flatPos 130 true).closed =
      flatState.closed ++ [{ position_id := flatPos.id, exit_price := flatPos.current_price
                           , reason := "TIME_EXIT", pnl := closePnl flatPos }] :=
  time_exit_reason_time_exit flatState flatPos 130
    (by norm_num [poolConfigOf, SAFE_POOL, flatPos, ActivePosition.age])
    (by norm_num [flatPos]) (by norm_num [flatPos])

theorem openPositionBody_some_quantity (s : PMState) (now : ℚ) (pool : String)
    (ep sz : ℚ) (ok : Bool) (nid : ℕ) (pos : ActivePosition)
    (h : (openPositionBody s now pool ep sz ok nid).2 = some pos) :
    pos.original_quantity = (if 0 < ep then clampedSize s pool sz / ep else 0) ∧
    pos.remaining_quantity = pos.original_quantity := by
  simp only [openPositionBody, clampedSize, poolCapitalOf] at h ⊢
  split_ifs at h ⊢ <;>
    first
      | (dsimp only at h; rw [Option.some_inj] at h; subst h; exact ⟨rfl, rfl⟩)
      | simp_all

theorem openPosition_some (s : PMState) (now : ℚ) (pool : String) (ep sz : ℚ)
    (ok : Bool) (nid : ℕ) (pos : ActivePosition)
    (h : (openPosition s now pool ep sz ok nid).2 = some pos) :
    ∃ s1, (openPositionBody s1 now pool ep sz ok nid).2 = some pos := by
  simp only [openPosition] at h
  split at h
  · split at h
    · split at h
      · simp at h
      · exact ⟨_, h⟩
    · exact ⟨_, h⟩
  · exact ⟨_, h⟩

/-- C10: a nonpositive entry price never reaches a division. open_position
computes quantity through the explicit guard at position_manager.py line
253, yielding 0 when entry_price is nonpositive, and
ActivePosition.update_price recomputes pnl_percent and pnl_usd only when
entry_price is positive, leaving both at their prior values otherwise. -/
theorem zero_entry_price_safe :
    (∀ (s : PMState) (now : ℚ) (pool : String) (ep sz : ℚ) (ok : Bool) (nid : ℕ)
        (pos : ActivePosition), ep ≤ 0 →
        (openPosition s now pool ep sz ok nid).2 = some pos →
        pos.original_quantity = 0 ∧ pos.remaining_quantity = 0) ∧
    (∀ (pos : ActivePosition) (p : ℚ), pos.entry_price ≤ 0 →
        (pos.updatePrice p).pnl_percent = pos.pnl_percent ∧
        (pos.updatePrice p).pnl_usd = pos.pnl_usd) := by
  constructor
  · intro s now pool ep sz ok nid pos hep h
    obtain ⟨s1, h1⟩ := openPosition_some s now pool ep sz ok nid pos h
    obtain ⟨ho, hr⟩ := openPositionBody_some_quantity s1 now pool ep sz ok nid pos h1
    rw [if_neg (not_lt.mpr hep)] at ho
    exact ⟨ho, hr.trans ho⟩
  · intro pos p hep
    simp only [ActivePosition.updatePrice]
    split_ifs <;> dsimp only <;> first | exact ⟨rfl, rfl⟩ | linarith

/-- C10 witness: opening with entry price 0 on the initial state succeeds
with quantity 0, and a price update on the resulting position leaves its
P&L fields unchanged. -/
theorem zero_entry_price_safe_witness :
    (zePos.original_quantity = 0 ∧ zePos.remaining_quantity = 0) ∧
    ((zePos.updatePrice 5).pnl_percent = zePos.pnl_percent ∧
      (zePos.updatePrice 5).pnl_usd = zePos.pnl_usd) :=
  ⟨zero_entry_price_safe.1 initialState 0 "SAFE" 0 10 true 1 zePos (by norm_num)
      (by norm_num [openPosition, openPositionBody, initialState, SAFE_POOL, HUNT_POOL,
        TRADING_CONFIG, zePos])
  , zero_entry_price_safe.2 zePos 5 (by norm_num [zePos])⟩

/-- C3: counterexample to the clamp-to-minimum claim. A request for 3 USD
on the fresh initial state (not paused, no open positions, 60 USD of SAFE
capital, successful buy) passes the circuit-breaker and position-count
checks, but open_position rejects it (returns no position) instead of
clamping it up to the 5 USD minimum position size. -/
theorem open_position_min_size_rejected :
    initialState.is_paused = false ∧ initialState.positions = [] ∧
    (3 : ℚ) < TRADING_CONFIG.min_position_size ∧
    (openPosition initialState 0 "SAFE" 1 3 true 1).2 = none := by
  refine ⟨rfl, rfl, by norm_num [TRADING_CONFIG], ?_⟩
  norm_num [openPosition, openPositionBody, initialState, SAFE_POOL, HUNT_POOL, TRADING_CONFIG]

/-- C3 (amended): for every open_position request that passes the
circuit-breaker and position-count checks, the requested USD size is
clamped only to the pool's available capital (a request above it is reduced
to 90 percent of that capital); a size below the configured minimum is then
rejected rather than raised, and no maximum-size clamp is applied inside
open_position (the caller clamps to the configured min and max before
calling). When the post-clamp size passes the minimum check and the buy
succeeds, the opened position has entry_value equal to the clamped size,
quantity equal to that size divided by the entry price, and initial
stop-loss equal to entry price times (1 minus the pool stop-loss
fraction). -/
theorem open_position_clamp (s : PMState) (now : ℚ) (pool : String) (ep sz : ℚ) (nid : ℕ)
    (hp : s.is_paused = false)
    (hpool : (s.positions.filter (fun p => p.pool = pool)).length <
      (poolConfigOf pool).max_positions)
    (htot : s.positions.length < TRADING_CONFIG.max_total_positions)
    (hmin : TRADING_CONFIG.min_position_size ≤ clampedSize s pool sz)
    (hep : 0 < ep) :
    ∃ pos, (openPosition s now pool ep sz true nid).2 = some pos ∧
      pos.entry_value = clampedSize s pool sz ∧
      pos.original_quantity = clampedSize s pool sz / ep ∧
      pos.current_stop_loss = ep * (1 - |(poolConfigOf pool).stop_loss_percent| / 100) := by
  simp only [poolConfigOf] at hpool
  simp only [clampedSize, poolCapitalOf] at hmin
  simp only [openPosition, hp, Bool.false_eq_true, if_false]
  simp only [openPositionBody]
  rw [if_neg (not_le.mpr hpool), if_neg (not_le.mpr htot), if_neg (not_lt.mpr hmin),
    if_neg (by simp : ¬(true = false)), if_pos hep]
  exact ⟨_, rfl, by simp [clampedSize, poolCapitalOf], by simp [clampedSize, poolCapitalOf],
    by simp [poolConfigOf]⟩

/-- C3 witness: the amended theorem applied to a 100 USD request against 60
USD of SAFE capital on the initial state: the clamped size is 54. -/
theorem open_position_clamp_witness :
    clampedSize initialState "SAFE" 100 = 54 ∧
    ∃ pos, (openPosition initialState 0 "SAFE" 2 100 true 1).2 = some pos ∧
      pos.entry_value = clampedSize initialState "SAFE" 100 ∧
      pos.original_quantity = clampedSize initialState "SAFE" 100 / 2 ∧
      pos.current_stop_loss = 2 * (1 - |(poolConfigOf "SAFE").stop_loss_percent| / 100) :=
  ⟨by norm_num [clampedSize, poolCapitalOf, initialState, TRADING_CONFIG, SAFE_POOL, HUNT_POOL]
  , open_position_clamp initialState 0 "SAFE" 2 100 1 rfl
      (by norm_num [initialState, poolConfigOf, SAFE_POOL])
      (by norm_num [initialState, TRADING_CONFIG])
      (by norm_num [clampedSize, poolCapitalOf, initialState, TRADING_CONFIG, SAFE_POOL,
        HUNT_POOL])
      (by norm_num)⟩

theorem makeDecisionRest_preserves (r : ConfluenceResult) (score : ScoreBreakdown)
    (pair : TokenPair) :
    (ConfluenceEngine.makeDecisionRest r score pair).signals = r.signals ∧
    (ConfluenceEngine.makeDecisionRest r score pair).total_weight = r.total_weight ∧
    (ConfluenceEngine.makeDecisionRest r score pair).max_weight = r.max_weight ∧
    (ConfluenceEngine.makeDecisionRest r score pair).rejection_reasons = r.rejection_reasons := by
  simp only [ConfluenceEngine.makeDecisionRest]
  split_ifs <;> exact ⟨rfl, rfl, rfl, rfl⟩

theorem makeDecisionRest_confidence (r : ConfluenceResult) (score : ScoreBreakdown)
    (pair : TokenPair) :
    (ConfluenceEngine.makeDecisionRest r score pair).confidence =
      (if 0 < r.max_weight then (r.total_weight : ℚ) / (r.max_weight : ℚ) else 0) * 100 := by
  simp only [ConfluenceEngine.makeDecisionRest]
  split_ifs <;> rfl

theorem critGate (l : List RejectionReason) :
    (l ≠ [] ∧ l.filter RejectionReason.isCritical ≠ []) ↔
      l.any RejectionReason.isCritical = true := by
  constructor
  · rintro ⟨-, hf⟩
    rcases List.exists_mem_of_ne_nil _ hf with ⟨x, hx⟩
    exact List.any_eq_true.mpr ⟨x, (List.mem_filter.mp hx).1, (List.mem_filter.mp hx).2⟩
  · intro h
    rcases List.any_eq_true.mp h with ⟨x, hx, hpx⟩
    exact ⟨List.ne_nil_of_mem hx, List.ne_nil_of_mem (List.mem_filter.mpr ⟨hx, hpx⟩)⟩

theorem makeDecision_critical (r : ConfluenceResult) (score : ScoreBreakdown)
    (pair : TokenPair) (h : r.rejection_reasons.any RejectionReason.isCritical = true) :
    ConfluenceEngine.makeDecision r score pair =
      { r with should_enter := false, confidence := 0 } := by
  simp only [ConfluenceEngine.makeDecision]
  rw [if_pos ((critGate _).mpr h)]

theorem makeDecision_not_critical (r : ConfluenceResult) (score : ScoreBreakdown)
    (pair : TokenPair) (h : r.rejection_reasons.any RejectionReason.isCritical = false) :
    ConfluenceEngine.makeDecision r score pair = ConfluenceEngine.makeDecisionRest r score pair := by
  simp only [ConfluenceEngine.makeDecision]
  rw [if_neg (fun hc => by rw [(critGate _).mp hc] at h; cases h)]

theorem makeDecision_preserves (r : ConfluenceResult) (score : ScoreBreakdown)
    (pair : TokenPair) :
    (ConfluenceEngine.makeDecision r score pair).signals = r.signals ∧
    (ConfluenceEngine.makeDecision r score pair).total_weight = r.total_weight ∧
    (ConfluenceEngine.makeDecision r score pair).max_weight = r.max_weight ∧
    (ConfluenceEngine.makeDecision r score pair).rejection_reasons = r.rejection_reasons := by
  simp only [ConfluenceEngine.makeDecision]
  split_ifs
  · exact ⟨rfl, rfl, rfl, rfl⟩
  · exact makeDecisionRest_preserves r score pair

/-- C2 (amended): the aggregated total_weight always equals the sum of the
weights of the active signals, and confidence equals
total_weight / max_weight * 100 unless a critical rejection reason (one
whose text matches honeypot, safety, concentrated, or dump) is present,
in which case _make_decision forces confidence to 0 and refuses entry. -/
theorem confluence_weight_and_confidence :
    ∀ (pair : TokenPair) (safety : SafetyReport) (score : ScoreBreakdown)
      (momentum : MomentumSignal) (sm : Option SmartMoney),
      ((ConfluenceEngine.analyze pair safety score momentum sm).total_weight =
        (((ConfluenceEngine.analyze pair safety score momentum sm).signals.filter
            (fun sig => sig.active)).map (fun sig => sig.weight)).sum) ∧
      ((ConfluenceEngine.analyze pair safety score momentum sm).rejection_reasons.any
          RejectionReason.isCritical = true →
        (ConfluenceEngine.analyze pair safety score momentum sm).confidence = 0 ∧
        (ConfluenceEngine.analyze pair safety score momentum sm).should_enter = false) ∧
      ((ConfluenceEngine.analyze pair safety score momentum sm).rejection_reasons.any
          RejectionReason.isCritical = false →
        (ConfluenceEngine.analyze pair safety score momentum sm).confidence =
          ((ConfluenceEngine.analyze pair safety score momentum sm).total_weight : ℚ) /
            ((ConfluenceEngine.analyze pair safety score momentum sm).max_weight : ℚ) * 100) := by
  intro pair safety score momentum sm
  simp only [ConfluenceEngine.analyze]
  obtain ⟨hs, ht, hm, hr⟩ :=
    makeDecision_preserves (ConfluenceEngine.analyzeBase pair safety momentum sm) score pair
  refine ⟨?_, ?_, ?_⟩
  · rw [ht, hs]
    rfl
  · intro hcrit
    rw [hr] at hcrit
    rw [makeDecision_critical _ score pair hcrit]
    exact ⟨rfl, rfl⟩
  · intro hcrit
    rw [hr] at hcrit
    rw [makeDecision_not_critical _ score pair hcrit]
    obtain ⟨hs2, ht2, hm2, -⟩ :=
      makeDecisionRest_preserves (ConfluenceEngine.analyzeBase pair safety momentum sm) score pair
    rw [makeDecisionRest_confidence, ht2, hm2]
    rw [if_pos (show 0 < (ConfluenceEngine.analyzeBase pair safety momentum sm).max_weight
      from by norm_num [ConfluenceEngine.analyzeBase, confluenceWeights])]

theorem checkSafety_cr : ConfluenceEngine.checkSafety crSafety =
    (⟨"safety_passed", false, 0⟩, [.safetyFailed .DANGEROUS]) := by
  norm_num [ConfluenceEngine.checkSafety, crSafety, weightOf, confluenceWeights]
  decide

theorem checkSafety_ok : ConfluenceEngine.checkSafety okSafety =
    (⟨"safety_passed", true, 2⟩, []) := by
  norm_num [ConfluenceEngine.checkSafety, okSafety, crSafety, weightOf, confluenceWeights]
  all_goals decide

theorem checkLiquidity_cr : ConfluenceEngine.checkLiquidity crPair =
    (⟨"liquidity_healthy", true, 1⟩, []) := by
  norm_num [ConfluenceEngine.checkLiquidity, crPair, weightOf, confluenceWeights, TRADING_CONFIG]
  decide

theorem checkHolders_cr : ConfluenceEngine.checkHolders crSafety =
    (⟨"holders_distributed", true, 1⟩, []) := by
  norm_num [ConfluenceEngine.checkHolders, crSafety, weightOf, confluenceWeights, TRADING_CONFIG]
  decide

theorem checkHolders_ok : ConfluenceEngine.checkHolders okSafety =
    (⟨"holders_distributed", true, 1⟩, []) := by
  norm_num [ConfluenceEngine.checkHolders, okSafety, crSafety, weightOf, confluenceWeights,
    TRADING_CONFIG]
  decide

theorem checkVolume_cr : ConfluenceEngine.checkVolume crPair =
    (⟨"volume_increasing", true, 1⟩, []) := by
  norm_num [ConfluenceEngine.checkVolume, crPair, TokenPair.volume_trend, weightOf,
    confluenceWeights]
  decide

theorem checkBuyPressure_cr : ConfluenceEngine.checkBuyPressure crPair =
    (⟨"buy_pressure_high", true, 1⟩, []) := by
  norm_num [ConfluenceEngine.checkBuyPressure, crPair, TokenPair.buy_pressure_1h, weightOf,
    confluenceWeights]
  decide

theorem checkMomentum_cr : ConfluenceEngine.checkMomentum crMomentum =
    (⟨"momentum_bullish", true, 2⟩, []) := by
  norm_num [ConfluenceEngine.checkMomentum, crMomentum, weightOf, confluenceWeights]
  decide

theorem checkAge_cr : ConfluenceEngine.checkAge crPair =
    (⟨"fresh_token", true, 1⟩, []) := by
  norm_num [ConfluenceEngine.checkAge, crPair, weightOf, confluenceWeights]
  decide

theorem checkRedFlags_cr : ConfluenceEngine.checkRedFlags crSafety crPair =
    (⟨"no_red_flags", true, 1⟩, []) := by
  norm_num [ConfluenceEngine.checkRedFlags, ConfluenceEngine.redFlags, crSafety, crPair,
    weightOf, confluenceWeights]
  decide

theorem checkRedFlags_ok : ConfluenceEngine.checkRedFlags okSafety crPair =
    (⟨"no_red_flags", true, 1⟩, []) := by
  norm_num [ConfluenceEngine.checkRedFlags, ConfluenceEngine.redFlags, okSafety, crSafety,
    crPair, weightOf, confluenceWeights]
  decide

theorem analyzeBase_cr : ConfluenceEngine.analyzeBase crPair crSafety crMomentum none =
    { signals := [⟨"safety_passed", false, 0⟩, ⟨"liquidity_healthy", true, 1⟩,
        ⟨"holders_distributed", true, 1⟩, ⟨"volume_increasing", true, 1⟩,
        ⟨"buy_pressure_high", true, 1⟩, ⟨"momentum_bullish", true, 2⟩,
        ⟨"smart_money_buying", false, 0⟩, ⟨"social_buzz", false, 0⟩,
        ⟨"fresh_token", true, 1⟩, ⟨"no_red_flags", true, 1⟩]
    , active_signals := 7, total_weight := 8, max_weight := 13
    , should_enter := false, recommended_pool := none, confidence := 0
    , position_size_percent := 0, risk_level := "MEDIUM"
    , rejection_reasons := [.safetyFailed .DANGEROUS] } := by
  rw [ConfluenceEngine.analyzeBase, checkSafety_cr, checkLiquidity_cr, checkHolders_cr,
    checkVolume_cr, checkBuyPressure_cr, checkMomentum_cr, checkAge_cr, checkRedFlags_cr]
  norm_num [ConfluenceEngine.checkSmartMoney, ConfluenceEngine.checkSocial, confluenceWeights]

theorem analyzeBase_ok : ConfluenceEngine.analyzeBase crPair okSafety crMomentum none =
    { signals := [⟨"safety_passed", true, 2⟩, ⟨"liquidity_healthy", true, 1⟩,
        ⟨"holders_distributed", true, 1⟩, ⟨"volume_increasing", true, 1⟩,
        ⟨"buy_pressure_high", true, 1⟩, ⟨"momentum_bullish", true, 2⟩,
        ⟨"smart_money_buying", false, 0⟩, ⟨"social_buzz", false, 0⟩,
        ⟨"fresh_token", true, 1⟩, ⟨"no_red_flags", true, 1⟩]
    , active_signals := 8, total_weight := 10, max_weight := 13
    , should_enter := false, recommended_pool := none, confidence := 0
    , position_size_percent := 0, risk_level := "MEDIUM"
    , rejection_reasons := [] } := by
  rw [ConfluenceEngine.analyzeBase, checkSafety_ok, checkLiquidity_cr, checkHolders_ok,
    checkVolume_cr, checkBuyPressure_cr, checkMomentum_cr, checkAge_cr, checkRedFlags_ok]
  norm_num [ConfluenceEngine.checkSmartMoney, ConfluenceEngine.checkSocial, confluenceWeights]

/-- C2: counterexample. On a dangerous-safety input whose other signals are
healthy, analyze aggregates total_weight 8 of max_weight 13 yet reports
confidence 0 because the safety rejection is critical, so confidence does
not equal total_weight / max_weight * 100. -/
theorem confluence_confidence_counterexample :
    (ConfluenceEngine.analyze crPair crSafety crScore crMomentum none).total_weight = 8 ∧
    (ConfluenceEngine.analyze crPair crSafety crScore crMomentum none).max_weight = 13 ∧
    (ConfluenceEngine.analyze crPair crSafety crScore crMomentum none).confidence = 0 ∧
    (ConfluenceEngine.analyze crPair crSafety crScore crMomentum none).confidence ≠
      ((ConfluenceEngine.analyze crPair crSafety crScore crMomentum none).total_weight : ℚ) /
        ((ConfluenceEngine.analyze crPair crSafety crScore crMomentum none).max_weight : ℚ) *
        100 := by
  have h : ConfluenceEngine.analyze crPair crSafety crScore crMomentum none =
      ConfluenceEngine.makeDecision (ConfluenceEngine.analyzeBase crPair crSafety crMomentum none)
        crScore crPair := rfl
  rw [h, analyzeBase_cr, makeDecision_critical _ _ _ (by decide)]
  refine ⟨rfl, rfl, rfl, ?_⟩
  norm_num

theorem analyze_cr_rejections :
    (ConfluenceEngine.analyze crPair crSafety crScore crMomentum none).rejection_reasons =
      [.safetyFailed .DANGEROUS] := by
  rw [show ConfluenceEngine.analyze crPair crSafety crScore crMomentum none =
    ConfluenceEngine.makeDecision (ConfluenceEngine.analyzeBase crPair crSafety crMomentum none)
      crScore crPair from rfl, (makeDecision_preserves _ _ _).2.2.2, analyzeBase_cr]

theorem analyze_ok_rejections :
    (ConfluenceEngine.analyze crPair okSafety crScore crMomentum none).rejection_reasons =
      [] := by
  rw [show ConfluenceEngine.analyze crPair okSafety crScore crMomentum none =
    ConfluenceEngine.makeDecision (ConfluenceEngine.analyzeBase crPair okSafety crMomentum none)
      crScore crPair from rfl, (makeDecision_preserves _ _ _).2.2.2, analyzeBase_ok]

/-- C2 witness: the amended theorem applied to the critical-rejection input
(confidence forced to 0) and to the same input with SAFE status
(confidence 10 / 13 * 100). -/
theorem confluence_weight_and_confidence_witness :
    ((ConfluenceEngine.analyze crPair crSafety crScore crMomentum none).confidence = 0 ∧
      (ConfluenceEngine.analyze crPair crSafety crScore crMomentum none).should_enter = false) ∧
    ((ConfluenceEngine.analyze crPair okSafety crScore crMomentum none).confidence =
      ((ConfluenceEngine.analyze crPair okSafety crScore crMomentum none).total_weight : ℚ) /
        ((ConfluenceEngine.analyze crPair okSafety crScore crMomentum none).max_weight : ℚ) *
        100) :=
  ⟨(confluence_weight_and_confidence crPair crSafety crScore crMomentum none).2.1
      (by rw [analyze_cr_rejections]; decide)
  , (confluence_weight_and_confidence crPair okSafety crScore crMomentum none).2.2
      (by rw [analyze_ok_rejections]; decide)⟩

theorem soldTPQty_append (ts : List Trade) (t : Trade) (pid : ℕ) :
    soldTPQty (ts ++ [t]) pid = soldTPQty ts pid +
      (if (t.position_id == pid && isTPType t.trade_type) = true then t.quantity else 0) := by
  simp only [soldTPQty, List.filter_append, List.map_append, List.sum_append]
  cases h : (t.position_id == pid && isTPType t.trade_type) <;>
    simp [List.filter, h]

theorem ladder_facts (tp : TakeProfitLevel) (h : tp ∈ TAKE_PROFIT_LADDER) :
    0 ≤ tp.sell_percent ∧ tp.sell_percent ≤ 100 ∧
      isTPType ("TP" ++ toString tp.level) = true := by
  fin_cases h <;> exact ⟨by norm_num, by norm_num, by decide⟩

theorem checkCircuitBreaker_trades (s : PMState) (now : ℚ) :
    (checkCircuitBreaker s now).trades = s.trades := by
  simp only [checkCircuitBreaker, activatePause]
  split_ifs <;> rfl

theorem closePosition_soldTPQty (s : PMState) (now : ℚ) (pos : ActivePosition) (r : String)
    (ok : Bool) (hr : isTPType r = false) (pid : ℕ) :
    soldTPQty (closePosition s now pos r ok).trades pid = soldTPQty s.trades pid := by
  simp only [closePosition]
  split_ifs <;>
    first
      | rfl
      | (rw [checkCircuitBreaker_trades]; dsimp only; rw [soldTPQty_append]; simp [hr])
      | (dsimp only; rw [soldTPQty_append]; simp [hr])

theorem executeTakeProfit_qty (s : PMState) (pos : ActivePosition) (level : ℕ) (pct : ℚ)
    (nsl : Option ℚ) (ok : Bool) (h0 : 0 ≤ pct) (h100 : pct ≤ 100)
    (htp : isTPType ("TP" ++ toString level) = true)
    (hq : 0 ≤ pos.remaining_quantity)
    (hc : pos.original_quantity = pos.remaining_quantity + soldTPQty s.trades pos.id) :
    (executeTakeProfit s pos level pct nsl ok).2.id = pos.id ∧
    (executeTakeProfit s pos level pct nsl ok).2.original_quantity = pos.original_quantity ∧
    (executeTakeProfit s pos level pct nsl ok).2.remaining_quantity ≤ pos.remaining_quantity ∧
    0 ≤ (executeTakeProfit s pos level pct nsl ok).2.remaining_quantity ∧
    (executeTakeProfit s pos level pct nsl ok).2.original_quantity =
      (executeTakeProfit s pos level pct nsl ok).2.remaining_quantity +
        soldTPQty (executeTakeProfit s pos level pct nsl ok).1.trades
          (executeTakeProfit s pos level pct nsl ok).2.id := by
  have hq1 : 0 ≤ pos.remaining_quantity * (pct / 100) :=
    mul_nonneg hq (div_nonneg h0 (by norm_num))
  have hq2 : pos.remaining_quantity * (pct / 100) ≤ pos.remaining_quantity := by
    calc pos.remaining_quantity * (pct / 100)
        ≤ pos.remaining_quantity * 1 :=
          mul_le_mul_of_nonneg_left (by linarith [(div_le_one (show (0:ℚ) < 100 by norm_num)).mpr h100]) hq
      _ = pos.remaining_quantity := mul_one _
  cases nsl <;> simp only [executeTakeProfit] <;> split_ifs <;> dsimp only <;>
    first
      | exact ⟨rfl, rfl, le_refl _, hq, hc⟩
      | (rw [soldTPQty_append]
         refine ⟨rfl, rfl, by linarith, by linarith, ?_⟩
         simp only [htp, beq_self_eq_true, Bool.true_and, if_pos]
         linarith)

/-- Quantity invariant carried through one monitoring pass: identity and
original quantity of the threaded position object are those of the starting
position, the remaining quantity has not increased and is nonnegative, and
original equals remaining plus the recorded partial-sell total. -/
def QtyInv (pos : ActivePosition) (sp : PMState × ActivePosition) : Prop :=
  sp.2.id = pos.id ∧ sp.2.original_quantity = pos.original_quantity ∧
  sp.2.remaining_quantity ≤ pos.remaining_quantity ∧
  0 ≤ sp.2.remaining_quantity ∧
  sp.2.original_quantity = sp.2.remaining_quantity + soldTPQty sp.1.trades sp.2.id

theorem tpStep_qty (pos : ActivePosition) (tp_ok : ℕ → Bool) (sp : PMState × ActivePosition)
    (tp : TakeProfitLevel) (hmem : tp ∈ TAKE_PROFIT_LADDER) (h : QtyInv pos sp) :
    QtyInv pos (tpStep tp_ok sp tp) := by
  obtain ⟨hid, horig, hle, hnn, hcons⟩ := h
  obtain ⟨hp0, hp100, htp⟩ := ladder_facts tp hmem
  simp only [tpStep]
  split_ifs
  · exact ⟨hid, horig, hle, hnn, hcons⟩
  · obtain ⟨a, b, c, d, e⟩ :=
      executeTakeProfit_qty sp.1 sp.2 tp.level tp.sell_percent tp.move_sl_to_percent
        (tp_ok tp.level) hp0 hp100 htp hnn hcons
    exact ⟨a.trans hid, b.trans horig, c.trans hle, d, e⟩
  · exact ⟨hid, horig, hle, hnn, hcons⟩

theorem checkTakeProfits_qty (pos : ActivePosition) (s : PMState) (q : ActivePosition)
    (tp_ok : ℕ → Bool) (h : QtyInv pos (s, q)) :
    QtyInv pos (checkTakeProfits s q tp_ok) := by
  simp only [checkTakeProfits]
  exact foldlInv (tpStep tp_ok) (QtyInv pos) TAKE_PROFIT_LADDER (s, q) h
    (fun sp tp hmem hp => tpStep_qty pos tp_ok sp tp hmem hp)

theorem updatePrice_qty (pos : ActivePosition) (p : ℚ) :
    (pos.updatePrice p).id = pos.id ∧
    (pos.updatePrice p).original_quantity = pos.original_quantity ∧
    (pos.updatePrice p).remaining_quantity = pos.remaining_quantity := by
  simp only [ActivePosition.updatePrice]
  split_ifs <;> exact ⟨rfl, rfl, rfl⟩

theorem checkStopLoss_qty (pos : ActivePosition) (sp : PMState × ActivePosition) (now : ℚ)
    (ok : Bool) (h : QtyInv pos sp) :
    QtyInv pos (checkStopLoss sp.1 sp.2 now ok) := by
  obtain ⟨hid, horig, hle, hnn, hcons⟩ := h
  simp only [checkStopLoss]
  split_ifs <;>
    refine ⟨hid, horig, hle, hnn, ?_⟩ <;>
    first
      | exact hcons
      | (rw [closePosition_soldTPQty _ _ _ _ _ (by decide)]; exact hcons)

theorem checkTimeExit_qty (pos : ActivePosition) (sp : PMState × ActivePosition) (now : ℚ)
    (ok : Bool) (h : QtyInv pos sp) :
    QtyInv pos (checkTimeExit sp.1 sp.2 now ok, sp.2) := by
  obtain ⟨hid, horig, hle, hnn, hcons⟩ := h
  simp only [checkTimeExit]
  split_ifs <;>
    refine ⟨hid, horig, hle, hnn, ?_⟩ <;>
    first
      | exact hcons
      | (rw [closePosition_soldTPQty _ _ _ _ _ (by decide)]; exact hcons)

/-- C6: across every monitoring tick (hence every sequence of partial
take-profit sells and closes), remaining_quantity is monotonically
non-increasing and never negative, and original_quantity always equals the
current remaining_quantity plus the sum of the recorded partial-sell
(TP-level) trade quantities; a full close sells exactly the remaining
quantity and leaves that identity untouched. -/
theorem remaining_quantity_conservation (s : PMState) (pos : ActivePosition) (now : ℚ)
    (price : Option ℚ) (o : TickOracle) (hq : 0 ≤ pos.remaining_quantity)
    (hc : pos.original_quantity = pos.remaining_quantity + soldTPQty s.trades pos.id) :
    (tickPosition s pos now price o).2.remaining_quantity ≤ pos.remaining_quantity ∧
    0 ≤ (tickPosition s pos now price o).2.remaining_quantity ∧
    (tickPosition s pos now price o).2.original_quantity =
      (tickPosition s pos now price o).2.remaining_quantity +
        soldTPQty (tickPosition s pos now price o).1.trades
          (tickPosition s pos now price o).2.id := by
  cases price with
  | none => exact ⟨le_refl _, hq, hc⟩
  | some p =>
      simp only [tickPosition]
      split_ifs with hp
      · obtain ⟨ha, hb, hd⟩ := updatePrice_qty pos p
        have h1 : QtyInv pos (s, pos.updatePrice p) :=
          ⟨ha, hb, le_of_eq hd, hd ▸ hq, by rw [hb, hd, ha]; exact hc⟩
        have h2 := checkTakeProfits_qty pos s (pos.updatePrice p) o.tp_ok h1
        generalize hA : checkTakeProfits s (pos.updatePrice p) o.tp_ok = sp1 at h2 ⊢
        have h3 := checkStopLoss_qty pos sp1 now o.sl_ok h2
        generalize hB : checkStopLoss sp1.1 sp1.2 now o.sl_ok = sp2 at h3 ⊢
        have h4 := checkTimeExit_qty pos sp2 now o.time_ok h3
        obtain ⟨hid4, horig4, hle4, hnn4, hcons4⟩ := h4
        exact ⟨hle4, hnn4, hcons4⟩
      · exact ⟨le_refl _, hq, hc⟩

/-- C6 witness: the invariant instantiated on the concrete flat position
with an empty trade log, across a tick at time 10 and price 1. -/
theorem remaining_quantity_conservation_witness :
    (tickPosition flatState flatPos 10 (some 1) allOk).2.remaining_quantity ≤
      flatPos.remaining_quantity ∧
    0 ≤ (tickPosition flatState flatPos 10 (some 1) allOk).2.remaining_quantity ∧
    (tickPosition flatState flatPos 10 (some 1) allOk).2.original_quantity =
      (tickPosition flatState flatPos 10 (some 1) allOk).2.remaining_quantity +
        soldTPQty (tickPosition flatState flatPos 10 (some 1) allOk).1.trades
          (tickPosition flatState flatPos 10 (some 1) allOk).2.id :=
  remaining_quantity_conservation flatState flatPos 10 (some 1) allOk
    (by norm_num [flatPos])
    (by norm_num [flatPos, flatState, initialState, soldTPQty])

theorem checkCircuitBreaker_consecutive (s : PMState) (now : ℚ) :
    (checkCircuitBreaker s now).consecutive_losses = s.consecutive_losses := by
  simp only [checkCircuitBreaker, activatePause]
  split_ifs <;> rfl

theorem closePosition_losing (s : PMState) (now : ℚ) (pos : ActivePosition) (r : String)
    (hq : 0 < pos.remaining_quantity) (hl : losingClose pos) :
    (closePosition s now pos r true).consecutive_losses = s.consecutive_losses + 1 := by
  simp only [losingClose, closePnl] at hl
  simp only [closePosition]
  rw [if_neg (not_le.mpr hq), if_neg (show ¬(true = false) by simp), if_pos hl,
    checkCircuitBreaker_consecutive]
  dsimp only
  rw [if_pos hl]

theorem closePosition_losing_pause (s : PMState) (now : ℚ) (pos : ActivePosition) (r : String)
    (hq : 0 < pos.remaining_quantity) (hl : losingClose pos)
    (hcount : TRADING_CONFIG.consecutive_loss_pause ≤ s.consecutive_losses + 1) :
    (closePosition s now pos r true).is_paused = true ∧
    (closePosition s now pos r true).pause_until =
      some (now + TRADING_CONFIG.pause_duration_hours * 60) := by
  simp only [losingClose, closePnl] at hl
  simp only [closePosition]
  rw [if_neg (not_le.mpr hq), if_neg (show ¬(true = false) by simp), if_pos hl]
  simp only [checkCircuitBreaker, activatePause]
  rw [if_pos (show TRADING_CONFIG.consecutive_loss_pause ≤ _ from by
    (try dsimp only); rw [if_pos hl]; exact hcount)]
  exact ⟨rfl, rfl⟩

theorem openPosition_paused (s : PMState) (now : ℚ) (pool : String) (ep sz : ℚ) (ok : Bool)
    (nid : ℕ) (t : ℚ) (hp : s.is_paused = true) (hu : s.pause_until = some t)
    (hnow : now < t) :
    openPosition s now pool ep sz ok nid = (s, none) := by
  simp only [openPosition, hp, hu, if_true]
  rw [if_pos hnow]

theorem openPosition_expired (s : PMState) (now : ℚ) (pool : String) (ep sz : ℚ) (ok : Bool)
    (nid : ℕ) (t : ℚ) (hp : s.is_paused = true) (hu : s.pause_until = some t)
    (hnow : ¬ now < t) :
    openPosition s now pool ep sz ok nid =
      openPosition { s with is_paused := false } now pool ep sz ok nid := by
  simp only [openPosition, hp, hu, if_true]
  rw [if_neg hnow]
  rfl

/-- C7: with the consecutive-loss threshold configured to 3, three
sequential closes each realizing a negative total P&L activate the circuit
breaker: is_paused is set and pause_until is set to the time of the third
close plus the configured pause duration; until that instant every
open_position request is rejected with no position and no state change,
whatever its arguments; from that instant on, the request behaves exactly
as on the unpaused state. -/
theorem circuit_breaker_three_losses (s0 : PMState) (p1 p2 p3 : ActivePosition)
    (t1 t2 t3 : ℚ) (r1 r2 r3 : String) (h0 : s0.consecutive_losses = 0)
    (hq1 : 0 < p1.remaining_quantity) (hl1 : losingClose p1)
    (hq2 : 0 < p2.remaining_quantity) (hl2 : losingClose p2)
    (hq3 : 0 < p3.remaining_quantity) (hl3 : losingClose p3) :
    (closePosition (closePosition (closePosition s0 t1 p1 r1 true) t2 p2 r2 true) t3 p3 r3
        true).is_paused = true ∧
    (closePosition (closePosition (closePosition s0 t1 p1 r1 true) t2 p2 r2 true) t3 p3 r3
        true).pause_until = some (t3 + TRADING_CONFIG.pause_duration_hours * 60) ∧
    (∀ (now : ℚ) (pool : String) (ep sz : ℚ) (ok : Bool) (nid : ℕ),
      now < t3 + TRADING_CONFIG.pause_duration_hours * 60 →
      openPosition (closePosition (closePosition (closePosition s0 t1 p1 r1 true) t2 p2 r2
          true) t3 p3 r3 true) now pool ep sz ok nid =
        (closePosition (closePosition (closePosition s0 t1 p1 r1 true) t2 p2 r2 true) t3 p3 r3
          true, none)) ∧
    (∀ (now : ℚ) (pool : String) (ep sz : ℚ) (ok : Bool) (nid : ℕ),
      ¬ now < t3 + TRADING_CONFIG.pause_duration_hours * 60 →
      openPosition (closePosition (closePosition (closePosition s0 t1 p1 r1 true) t2 p2 r2
          true) t3 p3 r3 true) now pool ep sz ok nid =
        openPosition { closePosition (closePosition (closePosition s0 t1 p1 r1 true) t2 p2 r2
          true) t3 p3 r3 true with is_paused := false } now pool ep sz ok nid) := by
  have hc1 := closePosition_losing s0 t1 p1 r1 hq1 hl1
  have hc2 := closePosition_losing (closePosition s0 t1 p1 r1 true) t2 p2 r2 hq2 hl2
  obtain ⟨hp, hu⟩ := closePosition_losing_pause
    (closePosition (closePosition s0 t1 p1 r1 true) t2 p2 r2 true) t3 p3 r3 hq3 hl3
    (by rw [hc2, hc1, h0]; norm_num [TRADING_CONFIG])
  refine ⟨hp, hu, ?_, ?_⟩
  · intro now pool ep sz ok nid hnow
    exact openPosition_paused _ now pool ep sz ok nid _ hp hu hnow
  · intro now pool ep sz ok nid hnow
    exact openPosition_expired _ now pool ep sz ok nid _ hp hu hnow

/-- C7 witness: three losing closes of the concrete losing position from
the initial state pause trading until minute 240; an open request at minute
10 is rejected unchanged. -/
theorem circuit_breaker_three_losses_witness :
    (closePosition (closePosition (closePosition initialState 0 losingPos "STOP_LOSS" true) 0
        losingPos "STOP_LOSS" true) 0 losingPos "STOP_LOSS" true).is_paused = true ∧
    openPosition (closePosition (closePosition (closePosition initialState 0 losingPos
        "STOP_LOSS" true) 0 losingPos "STOP_LOSS" true) 0 losingPos "STOP_LOSS" true) 10
        "SAFE" 1 10 true 7 =
      (closePosition (closePosition (closePosition initialState 0 losingPos "STOP_LOSS" true) 0
          losingPos "STOP_LOSS" true) 0 losingPos "STOP_LOSS" true, none) :=
  have h := circuit_breaker_three_losses initialState losingPos losingPos losingPos 0 0 0
    "STOP_LOSS" "STOP_LOSS" "STOP_LOSS" rfl
    (by norm_num [losingPos]) (by norm_num [losingClose, closePnl, losingPos])
    (by norm_num [losingPos]) (by norm_num [losingClose, closePnl, losingPos])
    (by norm_num [losingPos]) (by norm_num [losingClose, closePnl, losingPos])
  ⟨h.1, h.2.2.1 10 "SAFE" 1 10 true 7 (by norm_num [TRADING_CONFIG])⟩

theorem openPositionBody_good (s : PMState) (now : ℚ) (pool : String) (ep sz : ℚ)
    (ok : Bool) (nid : ℕ) (h : GoodState s) :
    GoodState (openPositionBody s now pool ep sz ok nid).1 := by
  obtain ⟨hs, hh, hp⟩ := h
  have hmin : (0:ℚ) < TRADING_CONFIG.min_position_size := by norm_num [TRADING_CONFIG]
  simp only [openPositionBody, GoodState]
  split_ifs <;>
    first
      | exact ⟨hs, hh, hp⟩
      | (refine ⟨by dsimp only; linarith, by dsimp only; linarith, ?_⟩
         intro q hq
         dsimp only at hq
         rcases List.mem_append.mp hq with hmem | hmem
         · exact hp q hmem
         · rw [List.mem_singleton.mp hmem]
           simp only [GoodPos]
           refine ⟨?_, by norm_num, ?_⟩
           · first | (apply div_nonneg <;> linarith) | norm_num
           · intro hpos
             first | linarith | (dsimp only at hpos; linarith))

theorem checkCircuitBreaker_good (s : PMState) (now : ℚ) (h : GoodState s) :
    GoodState (checkCircuitBreaker s now) := by
  obtain ⟨a, b, c⟩ := h
  simp only [checkCircuitBreaker, activatePause]
  split_ifs <;> exact ⟨a, b, c⟩

set_option maxHeartbeats 1000000 in
theorem closePosition_good (s : PMState) (now : ℚ) (pos : ActivePosition) (r : String)
    (ok : Bool) (h : GoodState s) (hg : GoodPos pos) :
    GoodState (closePosition s now pos r ok) := by
  obtain ⟨hs, hh, hp⟩ := h
  obtain ⟨hq, hsold, hpr⟩ := hg
  simp only [closePosition]
  split_ifs <;>
    first
      | exact ⟨hs, hh, hp⟩
      | (first | apply checkCircuitBreaker_good | skip
         have hrp : 0 ≤ pos.remaining_quantity * pos.current_price :=
           mul_nonneg (by linarith) (hpr (by linarith))
         refine ⟨by dsimp only; linarith, by dsimp only; linarith, ?_⟩
         intro q hq2
         dsimp only at hq2
         exact hp q (List.mem_of_mem_filter hq2))

theorem updatePrice_sold (pos : ActivePosition) (p : ℚ) :
    (pos.updatePrice p).total_sold_value = pos.total_sold_value ∧
    (pos.updatePrice p).current_price = p := by
  simp only [ActivePosition.updatePrice]
  split_ifs <;> exact ⟨rfl, rfl⟩

theorem executeTakeProfit_state (s : PMState) (pos : ActivePosition) (level : ℕ) (pct : ℚ)
    (nsl : Option ℚ) (ok : Bool) :
    (executeTakeProfit s pos level pct nsl ok).1.safe_pool_capital = s.safe_pool_capital ∧
    (executeTakeProfit s pos level pct nsl ok).1.hunt_pool_capital = s.hunt_pool_capital ∧
    (executeTakeProfit s pos level pct nsl ok).1.positions = s.positions := by
  cases nsl <;> simp only [executeTakeProfit] <;> split_ifs <;> exact ⟨rfl, rfl, rfl⟩

theorem executeTakeProfit_tickGood (s : PMState) (pos : ActivePosition) (level : ℕ) (pct : ℚ)
    (nsl : Option ℚ) (ok : Bool) (h0 : 0 ≤ pct) (h100 : pct ≤ 100)
    (hg : TickGood pos) : TickGood (executeTakeProfit s pos level pct nsl ok).2 := by
  obtain ⟨hq, hsold, hpr⟩ := hg
  have hq1 : 0 ≤ pos.remaining_quantity * (pct / 100) :=
    mul_nonneg hq (div_nonneg h0 (by norm_num))
  have hq2 : pos.remaining_quantity * (pct / 100) ≤ pos.remaining_quantity := by
    calc pos.remaining_quantity * (pct / 100)
        ≤ pos.remaining_quantity * 1 :=
          mul_le_mul_of_nonneg_left
            (by linarith [(div_le_one (show (0:ℚ) < 100 by norm_num)).mpr h100]) hq
      _ = pos.remaining_quantity := mul_one _
  have hv : 0 ≤ pos.remaining_quantity * (pct / 100) * pos.current_price :=
    mul_nonneg hq1 hpr
  cases nsl <;> simp only [executeTakeProfit] <;> split_ifs <;>
    first
      | exact ⟨hq, hsold, hpr⟩
      | exact ⟨by dsimp only; linarith, by dsimp only; linarith, by dsimp only; linarith⟩

theorem tpStep_good (tp_ok : ℕ → Bool) (sp : PMState × ActivePosition) (tp : TakeProfitLevel)
    (hmem : tp ∈ TAKE_PROFIT_LADDER) (h : GoodState sp.1 ∧ TickGood sp.2) :
    GoodState (tpStep tp_ok sp tp).1 ∧ TickGood (tpStep tp_ok sp tp).2 := by
  obtain ⟨h1, h2⟩ := h
  obtain ⟨hp0, hp100, -⟩ := ladder_facts tp hmem
  simp only [tpStep]
  split_ifs
  · exact ⟨h1, h2⟩
  · obtain ⟨ha, hb, hc⟩ := executeTakeProfit_state sp.1 sp.2 tp.level tp.sell_percent
      tp.move_sl_to_percent (tp_ok tp.level)
    obtain ⟨x, y, z⟩ := h1
    refine ⟨⟨by rw [ha]; exact x, by rw [hb]; exact y, ?_⟩, ?_⟩
    · intro q hq
      rw [hc] at hq
      exact z q hq
    · exact executeTakeProfit_tickGood sp.1 sp.2 tp.level tp.sell_percent
        tp.move_sl_to_percent (tp_ok tp.level) hp0 hp100 h2
  · exact ⟨h1, h2⟩

theorem checkTakeProfits_good (s : PMState) (pos : ActivePosition) (tp_ok : ℕ → Bool)
    (h : GoodState s ∧ TickGood pos) :
    GoodState (checkTakeProfits s pos tp_ok).1 ∧ TickGood (checkTakeProfits s pos tp_ok).2 := by
  simp only [checkTakeProfits]
  exact foldlInv (tpStep tp_ok) (fun sp => GoodState sp.1 ∧ TickGood sp.2)
    TAKE_PROFIT_LADDER (s, pos) h (fun sp tp hmem hp => tpStep_good tp_ok sp tp hmem hp)

theorem tickGood_goodPos (pos : ActivePosition) (h : TickGood pos) : GoodPos pos :=
  ⟨h.1, h.2.1, fun _ => h.2.2⟩

theorem checkStopLoss_good (sp : PMState × ActivePosition) (now : ℚ) (ok : Bool)
    (h : GoodState sp.1 ∧ TickGood sp.2) :
    GoodState (checkStopLoss sp.1 sp.2 now ok).1 ∧
    TickGood (checkStopLoss sp.1 sp.2 now ok).2 := by
  obtain ⟨h1, h2⟩ := h
  obtain ⟨hq, hsold, hpr⟩ := h2
  simp only [checkStopLoss]
  split_ifs <;>
    first
      | exact ⟨h1, ⟨hq, hsold, hpr⟩⟩
      | exact ⟨closePosition_good _ now _ _ ok h1 ⟨hq, hsold, fun _ => hpr⟩, hq, hsold, hpr⟩

theorem checkTimeExit_good (sp : PMState × ActivePosition) (now : ℚ) (ok : Bool)
    (h : GoodState sp.1 ∧ TickGood sp.2) :
    GoodState (checkTimeExit sp.1 sp.2 now ok) := by
  obtain ⟨h1, h2⟩ := h
  simp only [checkTimeExit]
  split_ifs <;>
    first
      | exact h1
      | exact closePosition_good _ now _ _ ok h1 (tickGood_goodPos _ h2)

theorem tickPosition_good (s : PMState) (pos : ActivePosition) (now : ℚ) (price : Option ℚ)
    (o : TickOracle) (h : GoodState s) (hg : GoodPos pos) :
    GoodState (tickPosition s pos now price o).1 := by
  cases price with
  | none => exact h
  | some p =>
      simp only [tickPosition]
      split_ifs with hp
      · obtain ⟨hsold, hcp⟩ := updatePrice_sold pos p
        obtain ⟨ha, hb, hd⟩ := updatePrice_qty pos p
        have h1 : TickGood (pos.updatePrice p) := by
          refine ⟨?_, ?_, ?_⟩
          · rw [hd]; exact hg.1
          · rw [hsold]; exact hg.2.1
          · rw [hcp]; exact le_of_lt hp
        have h2 := checkTakeProfits_good s (pos.updatePrice p) o.tp_ok ⟨h, h1⟩
        generalize hA : checkTakeProfits s (pos.updatePrice p) o.tp_ok = sp1 at h2 ⊢
        have h3 := checkStopLoss_good sp1 now o.sl_ok h2
        generalize hB : checkStopLoss sp1.1 sp1.2 now o.sl_ok = sp2 at h3 ⊢
        have h4 := checkTimeExit_good sp2 now o.time_ok h3
        obtain ⟨x, y, z⟩ := h4
        refine ⟨x, y, ?_⟩
        intro q hq
        dsimp only at hq
        rcases List.mem_map.mp hq with ⟨q0, hq0, hq0eq⟩
        rw [← hq0eq]
        split_ifs
        · exact tickGood_goodPos _ h3.2
        · exact z q0 hq0
      · exact h

theorem applyCmd_good (s : PMState) (c : Cmd) (h : GoodState s) : GoodState (applyCmd s c) := by
  cases c with
  | openP now pool ep sz ok nid =>
      obtain ⟨a, b, c⟩ := h
      simp only [applyCmd, openPosition]
      split_ifs
      · cases hu : s.pause_until with
        | none => exact openPositionBody_good _ now pool ep sz ok nid ⟨a, b, c⟩
        | some t =>
            dsimp only
            split_ifs
            · exact ⟨a, b, c⟩
            · exact openPositionBody_good _ now pool ep sz ok nid ⟨a, b, c⟩
      · exact openPositionBody_good _ now pool ep sz ok nid ⟨a, b, c⟩
  | tick pid now price tp_ok sl_ok time_ok =>
      simp only [applyCmd]
      cases hf : s.positions.find? (fun p => p.id = pid) with
      | none => exact h
      | some pos =>
          exact tickPosition_good s pos now price _ h
            (h.2.2 pos (List.mem_of_find?_eq_some hf))
  | closeManual pid now sell_ok =>
      simp only [applyCmd]
      cases hf : s.positions.find? (fun p => p.id = pid) with
      | none => exact h
      | some pos =>
          exact closePosition_good s now pos "MANUAL" sell_ok h
            (h.2.2 pos (List.mem_of_find?_eq_some hf))

theorem initialState_good : GoodState initialState := by
  refine ⟨by norm_num [initialState, TRADING_CONFIG, SAFE_POOL],
    by norm_num [initialState, TRADING_CONFIG, HUNT_POOL], ?_⟩
  intro p hp
  simp [initialState] at hp

/-- C9: the per-pool capital ledgers never go negative. Every successful
open debits at most the targeted pool's capital at call time (a larger
request is first reduced to 90 percent of that capital), every close only
credits a nonnegative return value, and monitoring ticks only move capital
through those two operations, so safe_pool_capital and hunt_pool_capital
stay nonnegative under every command sequence from the initial state. -/
theorem pool_capitals_nonneg :
    ∀ cmds : List Cmd, 0 ≤ (runCmds initialState cmds).safe_pool_capital ∧
      0 ≤ (runCmds initialState cmds).hunt_pool_capital := by
  intro cmds
  have h : GoodState (runCmds initialState cmds) := by
    simp only [runCmds]
    exact foldlInv applyCmd GoodState cmds initialState initialState_good
      (fun s c _ hs => applyCmd_good s c hs)
  exact ⟨h.1, h.2.1⟩

end Sniper
